import Mathlib

set_option maxRecDepth 20000
set_option maxHeartbeats 1000000

/-!
Verification of the IGRF magnetic-field model implementation
(src/cgv/model/igrf/igrf_model.py, class igrfModel).

The development shallowly embeds, over exact rationals and reals, the
coefficient-table parser (read_coefficients), the epoch resolver
(set_year, including its in-place Schmidt normalization of the cached
arrays), the vectorized spherical-harmonic evaluation (spherical) and
its scalar reference (_spherical0), the ENU and Cartesian field
post-processing (geographic / cartesian), and the keyword-driven
coordinate converter (convert_coordinates).

Floating-point arithmetic is modelled by exact real arithmetic; the
tabulated data are the exact decimal rationals embedded in the source.
scipy.special.lpmn is not re-derived: both summation routines receive
the same Legendre matrices P, dP as explicit arguments, exactly as both
Python routines call the same library function.
-/

namespace Igrf

/-- One data row of the embedded 12th-generation IGRF table: the g/h flag,
degree n, order m, and the 25 epoch columns (24 absolute epochs
1900..2015 plus the trailing secular-variation column, renamed to
2020.0 by read_coefficients). -/
structure CoeffRow where
  isG : Bool
  n : ℕ
  m : ℕ
  vals : List ℚ
deriving DecidableEq, Repr

/-- The epochs parsed from line 4 of the coeff string, as the integer
dictionary keys produced by years.astype(int) in read_coefficients. -/
def yearsInt : List ℤ :=
  [1900, 1905, 1910, 1915, 1920, 1925, 1930, 1935, 1940, 1945, 1950, 1955,
   1960, 1965, 1970, 1975, 1980, 1985, 1990, 1995, 2000, 2005, 2010, 2015, 2020]

/-- years[-1] : the final epoch key (2020), holding the folded
secular-variation entry after the += correction. -/
def lastYear : ℤ := (yearsInt.getD 24 0)

/-- years[-2] : the last absolute tabulated epoch (2015). -/
def sndLastYear : ℤ := (yearsInt.getD 23 0)

/-- Chunks of the 195 data rows of the embedded 12th-generation
coefficient table, exactly the numeric content parsed by
read_coefficients from the class attribute coeff (the second,
12th-generation assignment, which is the one in effect); split into
slices of ten rows only to keep elaboration cheap. -/
def igrfRowsC0 : List CoeffRow := [
  ⟨true, 1, 0, [-31543, -31464, -31354, -31212, -31060, -30926, -30805, -30715, -30654, -30594, -30554, -30500, -30421, -30334, -30220, -30100, -29992, -29873, -29775, -29692, -29619.4, -29554.63, -29496.57, -29442.0, 10.3]⟩,
  ⟨true, 1, 1, [-2298, -2298, -2297, -2306, -2317, -2318, -2316, -2306, -2292, -2285, -2250, -2215, -2169, -2119, -2068, -2013, -1956, -1905, -1848, -1784, -1728.2, -1669.05, -1586.42, -1501.0, 18.1]⟩,
  ⟨false, 1, 1, [5922, 5909, 5898, 5875, 5845, 5817, 5808, 5812, 5821, 5810, 5815, 5820, 5791, 5776, 5737, 5675, 5604, 5500, 5406, 5306, 5186.1, 5077.99, 4944.26, 4797.1, -26.6]⟩,
  ⟨true, 2, 0, [-677, -728, -769, -802, -839, -893, -951, -1018, -1106, -1244, -1341, -1440, -1555, -1662, -1781, -1902, -1997, -2072, -2131, -2200, -2267.7, -2337.24, -2396.06, -2445.1, -8.7]⟩,
  ⟨true, 2, 1, [2905, 2928, 2948, 2956, 2959, 2969, 2980, 2984, 2981, 2990, 2998, 3003, 3002, 2997, 3000, 3010, 3027, 3044, 3059, 3070, 3068.4, 3047.69, 3026.34, 3012.9, -3.3]⟩,
  ⟨false, 2, 1, [-1061, -1086, -1128, -1191, -1259, -1334, -1424, -1520, -1614, -1702, -1810, -1898, -1967, -2016, -2047, -2067, -2129, -2197, -2279, -2366, -2481.6, -2594.50, -2708.54, -2845.6, -27.4]⟩,
  ⟨true, 2, 2, [924, 1041, 1176, 1309, 1407, 1471, 1517, 1550, 1566, 1578, 1576, 1581, 1590, 1594, 1611, 1632, 1663, 1687, 1686, 1681, 1670.9, 1657.76, 1668.17, 1676.7, 2.1]⟩,
  ⟨false, 2, 2, [1121, 1065, 1000, 917, 823, 728, 644, 586, 528, 477, 381, 291, 206, 114, 25, -68, -200, -306, -373, -413, -458.0, -515.43, -575.73, -641.9, -14.1]⟩,
  ⟨true, 3, 0, [1022, 1037, 1058, 1084, 1111, 1140, 1172, 1206, 1240, 1282, 1297, 1302, 1302, 1297, 1287, 1276, 1281, 1296, 1314, 1335, 1339.6, 1336.30, 1339.85, 1350.7, 3.4]⟩,
  ⟨true, 3, 1, [-1469, -1494, -1524, -1559, -1600, -1645, -1692, -1740, -1790, -1834, -1889, -1944, -1992, -2038, -2091, -2144, -2180, -2208, -2239, -2267, -2288.0, -2305.83, -2326.54, -2352.3, -5.5]⟩
]

def igrfRowsC1 : List CoeffRow := [
  ⟨false, 3, 1, [-330, -357, -389, -421, -445, -462, -480, -494, -499, -499, -476, -462, -414, -404, -366, -333, -336, -310, -284, -262, -227.6, -198.86, -160.40, -115.3, 8.2]⟩,
  ⟨true, 3, 2, [1256, 1239, 1223, 1212, 1205, 1202, 1205, 1215, 1232, 1255, 1274, 1288, 1289, 1292, 1278, 1260, 1251, 1247, 1248, 1249, 1252.1, 1246.39, 1232.10, 1225.6, -0.7]⟩,
  ⟨false, 3, 2, [3, 34, 62, 84, 103, 119, 133, 146, 163, 186, 206, 216, 224, 240, 251, 262, 271, 284, 293, 302, 293.4, 269.72, 251.75, 244.9, -0.4]⟩,
  ⟨true, 3, 3, [572, 635, 705, 778, 839, 881, 907, 918, 916, 913, 896, 882, 878, 856, 838, 830, 833, 829, 802, 759, 714.5, 672.51, 633.73, 582.0, -10.1]⟩,
  ⟨false, 3, 3, [523, 480, 425, 360, 293, 229, 166, 101, 43, -11, -46, -83, -130, -165, -196, -223, -252, -297, -352, -427, -491.1, -524.72, -537.03, -538.4, 1.8]⟩,
  ⟨true, 4, 0, [876, 880, 884, 887, 889, 891, 896, 903, 914, 944, 954, 958, 957, 957, 952, 946, 938, 936, 939, 940, 932.3, 920.55, 912.66, 907.6, -0.7]⟩,
  ⟨true, 4, 1, [628, 643, 660, 678, 695, 711, 727, 744, 762, 776, 792, 796, 800, 804, 800, 791, 782, 780, 780, 780, 786.8, 797.96, 808.97, 813.7, 0.2]⟩,
  ⟨false, 4, 1, [195, 203, 211, 218, 220, 216, 205, 188, 169, 144, 136, 133, 135, 148, 167, 191, 212, 232, 247, 262, 272.6, 282.07, 286.48, 283.3, -1.3]⟩,
  ⟨true, 4, 2, [660, 653, 644, 631, 616, 601, 584, 565, 550, 544, 528, 510, 504, 479, 461, 438, 398, 361, 325, 290, 250.0, 210.65, 166.58, 120.4, -9.1]⟩,
  ⟨false, 4, 2, [-69, -77, -90, -109, -134, -163, -195, -226, -252, -276, -278, -274, -278, -269, -266, -265, -257, -249, -240, -236, -231.9, -225.23, -211.03, -188.7, 5.3]⟩
]

def igrfRowsC2 : List CoeffRow := [
  ⟨true, 4, 3, [-361, -380, -400, -416, -424, -426, -422, -415, -405, -421, -408, -397, -394, -390, -395, -405, -419, -424, -423, -418, -403.0, -379.86, -356.83, -334.9, 4.1]⟩,
  ⟨false, 4, 3, [-210, -201, -189, -173, -153, -130, -109, -90, -72, -55, -37, -23, 3, 13, 26, 39, 53, 69, 84, 97, 119.8, 145.15, 164.46, 180.9, 2.9]⟩,
  ⟨true, 4, 4, [134, 146, 160, 178, 199, 217, 234, 249, 265, 304, 303, 290, 269, 252, 234, 216, 199, 170, 141, 122, 111.3, 100.00, 89.40, 70.4, -4.3]⟩,
  ⟨false, 4, 4, [-75, -65, -55, -51, -57, -70, -90, -114, -141, -178, -210, -230, -255, -269, -279, -288, -297, -297, -299, -306, -303.8, -305.36, -309.72, -329.5, -5.2]⟩,
  ⟨true, 5, 0, [-184, -192, -201, -211, -221, -230, -237, -241, -241, -253, -240, -229, -222, -219, -216, -218, -218, -214, -214, -214, -218.8, -227.00, -230.87, -232.6, -0.2]⟩,
  ⟨true, 5, 1, [328, 328, 327, 327, 326, 326, 327, 329, 334, 346, 349, 360, 362, 358, 359, 356, 357, 355, 353, 352, 351.4, 354.41, 357.29, 360.1, 0.5]⟩,
  ⟨false, 5, 1, [-210, -193, -172, -148, -122, -96, -72, -51, -33, -12, 3, 15, 16, 19, 26, 31, 46, 47, 46, 46, 43.8, 42.72, 44.58, 47.3, 0.6]⟩,
  ⟨true, 5, 2, [264, 259, 253, 245, 236, 226, 218, 211, 208, 194, 211, 230, 242, 254, 262, 264, 261, 253, 245, 235, 222.3, 208.95, 200.26, 192.4, -1.3]⟩,
  ⟨false, 5, 2, [53, 56, 57, 58, 58, 58, 60, 64, 71, 95, 103, 110, 125, 128, 139, 148, 150, 150, 154, 165, 171.9, 180.25, 189.01, 197.0, 1.7]⟩,
  ⟨true, 5, 3, [5, -1, -9, -16, -23, -28, -32, -33, -33, -20, -20, -23, -26, -31, -42, -59, -74, -93, -109, -118, -130.4, -136.54, -141.05, -140.9, -0.1]⟩
]

def igrfRowsC3 : List CoeffRow := [
  ⟨false, 5, 3, [-33, -32, -33, -34, -38, -44, -53, -64, -75, -67, -87, -98, -117, -126, -139, -152, -151, -154, -153, -143, -133.1, -123.45, -118.06, -119.3, -1.2]⟩,
  ⟨true, 5, 4, [-86, -93, -102, -111, -119, -125, -131, -136, -141, -142, -147, -152, -156, -157, -160, -159, -162, -164, -165, -166, -168.6, -168.05, -163.17, -157.5, 1.4]⟩,
  ⟨false, 5, 4, [-124, -125, -126, -126, -125, -122, -118, -115, -113, -119, -122, -121, -114, -97, -91, -83, -78, -75, -69, -55, -39.3, -19.57, -0.01, 16.0, 3.4]⟩,
  ⟨true, 5, 5, [-16, -26, -38, -51, -62, -69, -74, -76, -76, -82, -76, -69, -63, -62, -56, -49, -48, -46, -36, -17, -12.9, -13.55, -8.03, 4.1, 3.9]⟩,
  ⟨false, 5, 5, [3, 11, 21, 32, 43, 51, 58, 64, 69, 82, 80, 78, 81, 81, 83, 88, 92, 95, 97, 107, 106.3, 103.85, 101.04, 100.2, 0.0]⟩,
  ⟨true, 6, 0, [63, 62, 62, 61, 61, 61, 60, 59, 57, 59, 54, 47, 46, 45, 43, 45, 48, 53, 61, 68, 72.3, 73.60, 72.78, 70.0, -0.3]⟩,
  ⟨true, 6, 1, [61, 60, 58, 57, 55, 54, 53, 53, 54, 57, 57, 57, 58, 61, 64, 66, 66, 65, 65, 67, 68.2, 69.56, 68.69, 67.7, -0.1]⟩,
  ⟨false, 6, 1, [-9, -7, -5, -2, 0, 3, 4, 4, 4, 6, -1, -9, -10, -11, -12, -13, -15, -16, -16, -17, -17.4, -20.33, -20.90, -20.8, 0.0]⟩,
  ⟨true, 6, 2, [-11, -11, -11, -10, -10, -9, -9, -8, -7, 6, 4, 3, 1, 8, 15, 28, 42, 51, 59, 68, 74.2, 76.74, 75.92, 72.7, -0.7]⟩,
  ⟨false, 6, 2, [83, 86, 89, 93, 96, 99, 102, 104, 105, 100, 99, 96, 99, 100, 100, 99, 93, 88, 82, 72, 63.7, 54.75, 44.18, 33.2, -2.1]⟩
]

def igrfRowsC4 : List CoeffRow := [
  ⟨true, 6, 3, [-217, -221, -224, -228, -233, -238, -242, -246, -249, -246, -247, -247, -237, -228, -212, -198, -192, -185, -178, -170, -160.9, -151.34, -141.40, -129.9, 2.1]⟩,
  ⟨false, 6, 3, [2, 4, 5, 8, 11, 14, 19, 25, 33, 16, 33, 48, 60, 68, 72, 75, 71, 69, 69, 67, 65.1, 63.63, 61.54, 58.9, -0.7]⟩,
  ⟨true, 6, 4, [-58, -57, -54, -51, -46, -40, -32, -25, -18, -25, -16, -8, -1, 4, 2, 1, 4, 4, 3, -1, -5.9, -14.58, -22.83, -28.9, -1.2]⟩,
  ⟨false, 6, 4, [-35, -32, -29, -26, -22, -18, -16, -15, -15, -9, -12, -16, -20, -32, -37, -41, -43, -48, -52, -58, -61.2, -63.53, -66.26, -66.7, 0.2]⟩,
  ⟨true, 6, 5, [59, 57, 54, 49, 44, 39, 32, 25, 18, 21, 12, 7, -2, 1, 3, 6, 14, 16, 18, 19, 16.9, 14.58, 13.10, 13.2, 0.3]⟩,
  ⟨false, 6, 5, [36, 32, 28, 23, 18, 13, 8, 4, 0, -16, -12, -12, -11, -8, -6, -4, -2, -1, 1, 1, 0.7, 0.24, 3.02, 7.3, 0.9]⟩,
  ⟨true, 6, 6, [-90, -92, -95, -98, -101, -103, -104, -106, -107, -104, -105, -107, -113, -111, -112, -111, -108, -102, -96, -93, -90.4, -86.36, -78.09, -70.9, 1.6]⟩,
  ⟨false, 6, 6, [-69, -67, -65, -62, -57, -52, -46, -40, -33, -39, -30, -24, -17, -7, 1, 11, 17, 21, 24, 36, 43.8, 50.94, 55.40, 62.6, 1.0]⟩,
  ⟨true, 7, 0, [70, 70, 71, 72, 73, 73, 74, 74, 74, 70, 65, 65, 67, 75, 72, 71, 72, 74, 77, 77, 79.0, 79.88, 80.44, 81.6, 0.3]⟩,
  ⟨true, 7, 1, [-55, -54, -54, -54, -54, -54, -54, -53, -53, -40, -55, -56, -56, -57, -57, -56, -59, -62, -64, -72, -74.0, -74.46, -75.00, -76.1, -0.2]⟩
]

def igrfRowsC5 : List CoeffRow := [
  ⟨false, 7, 1, [-45, -46, -47, -48, -49, -50, -51, -52, -52, -45, -35, -50, -55, -61, -70, -77, -82, -83, -80, -69, -64.6, -61.14, -57.80, -54.1, 0.8]⟩,
  ⟨true, 7, 2, [0, 0, 1, 2, 2, 3, 4, 4, 4, 0, 2, 2, 5, 4, 1, 1, 2, 3, 2, 1, 0.0, -1.65, -4.55, -6.8, -0.5]⟩,
  ⟨false, 7, 2, [-13, -14, -14, -14, -14, -14, -15, -17, -18, -18, -17, -24, -28, -27, -27, -26, -27, -27, -26, -25, -24.2, -22.57, -21.20, -19.5, 0.4]⟩,
  ⟨true, 7, 3, [34, 33, 32, 31, 29, 27, 25, 23, 20, 0, 1, 10, 15, 13, 14, 16, 21, 24, 26, 28, 33.3, 38.73, 45.24, 51.8, 1.3]⟩,
  ⟨false, 7, 3, [-10, -11, -12, -12, -13, -14, -14, -14, -14, 2, 0, -4, -6, -2, -4, -5, -5, -2, 0, 4, 6.2, 6.82, 6.54, 5.7, -0.2]⟩,
  ⟨true, 7, 4, [-41, -41, -40, -38, -37, -35, -34, -33, -31, -29, -40, -32, -32, -26, -22, -14, -12, -6, -1, 5, 9.1, 12.30, 14.00, 15.0, 0.1]⟩,
  ⟨false, 7, 4, [-1, 0, 1, 2, 4, 5, 6, 7, 7, 6, 10, 8, 7, 6, 8, 10, 16, 20, 21, 24, 24.0, 25.35, 24.96, 24.4, -0.3]⟩,
  ⟨true, 7, 5, [-21, -20, -19, -18, -16, -14, -12, -11, -9, -10, -7, -11, -7, -6, -2, 0, 1, 4, 5, 4, 6.9, 9.37, 10.46, 9.4, -0.6]⟩,
  ⟨false, 7, 5, [28, 28, 28, 28, 28, 29, 29, 29, 29, 28, 36, 28, 23, 26, 23, 22, 18, 17, 17, 17, 14.8, 10.93, 7.03, 3.4, -0.6]⟩,
  ⟨true, 7, 6, [18, 18, 18, 19, 19, 19, 18, 18, 17, 15, 5, 9, 17, 13, 13, 12, 11, 10, 9, 8, 7.3, 5.42, 1.64, -2.8, -0.8]⟩
]

def igrfRowsC6 : List CoeffRow := [
  ⟨false, 7, 6, [-12, -12, -13, -15, -16, -17, -18, -19, -20, -17, -18, -20, -18, -23, -23, -23, -23, -23, -23, -24, -25.4, -26.32, -27.61, -27.4, 0.1]⟩,
  ⟨true, 7, 7, [6, 6, 6, 6, 6, 6, 6, 6, 5, 29, 19, 18, 8, 1, -2, -5, -2, 0, 0, -2, -1.2, 1.94, 4.92, 6.8, 0.2]⟩,
  ⟨false, 7, 7, [-22, -22, -22, -22, -22, -21, -20, -19, -19, -22, -16, -18, -17, -12, -11, -12, -10, -7, -4, -6, -5.8, -4.64, -3.28, -2.2, -0.2]⟩,
  ⟨true, 8, 0, [11, 11, 11, 11, 11, 11, 11, 11, 11, 13, 22, 11, 15, 13, 14, 14, 18, 21, 23, 25, 24.4, 24.80, 24.41, 24.2, 0.2]⟩,
  ⟨true, 8, 1, [8, 8, 8, 8, 7, 7, 7, 7, 7, 7, 15, 9, 6, 5, 6, 6, 6, 6, 5, 6, 6.6, 7.62, 8.21, 8.8, 0.0]⟩,
  ⟨false, 8, 1, [8, 8, 8, 8, 8, 8, 8, 8, 8, 12, 5, 10, 11, 7, 7, 6, 7, 8, 10, 11, 11.9, 11.20, 10.84, 10.1, -0.3]⟩,
  ⟨true, 8, 2, [-4, -4, -4, -4, -3, -3, -3, -3, -3, -8, -4, -6, -4, -4, -2, -1, 0, 0, -1, -6, -9.2, -11.73, -14.50, -16.9, -0.6]⟩,
  ⟨false, 8, 2, [-14, -15, -15, -15, -15, -15, -15, -15, -14, -21, -22, -15, -14, -12, -15, -16, -18, -19, -19, -21, -21.5, -20.88, -20.03, -18.3, 0.3]⟩,
  ⟨true, 8, 3, [-9, -9, -9, -9, -9, -9, -9, -9, -10, -5, -1, -14, -11, -14, -13, -12, -11, -11, -10, -9, -7.9, -6.88, -5.59, -3.2, 0.5]⟩,
  ⟨false, 8, 3, [7, 7, 6, 6, 6, 6, 5, 5, 5, -12, 0, 5, 7, 9, 6, 4, 4, 5, 6, 8, 8.5, 9.83, 11.83, 13.3, 0.1]⟩
]

def igrfRowsC7 : List CoeffRow := [
  ⟨true, 8, 4, [1, 1, 1, 2, 2, 2, 2, 1, 1, 9, 11, 6, 2, 0, -3, -8, -7, -9, -12, -14, -16.6, -18.11, -19.34, -20.6, -0.2]⟩,
  ⟨false, 8, 4, [-13, -13, -13, -13, -14, -14, -14, -15, -15, -7, -21, -23, -18, -16, -17, -19, -22, -23, -22, -23, -21.5, -19.71, -17.41, -14.6, 0.5]⟩,
  ⟨true, 8, 5, [2, 2, 2, 3, 4, 4, 5, 6, 6, 7, 15, 10, 10, 8, 5, 4, 4, 4, 3, 9, 9.1, 10.17, 11.61, 13.4, 0.4]⟩,
  ⟨false, 8, 5, [5, 5, 5, 5, 5, 5, 5, 5, 5, 2, -8, 3, 4, 4, 6, 6, 9, 11, 12, 15, 15.5, 16.22, 16.71, 16.2, -0.2]⟩,
  ⟨true, 8, 6, [-9, -8, -8, -8, -7, -7, -6, -6, -5, -10, -13, -7, -5, -1, 0, 0, 3, 4, 4, 6, 7.0, 9.36, 10.85, 11.7, 0.1]⟩,
  ⟨false, 8, 6, [16, 16, 16, 16, 17, 17, 18, 18, 19, 18, 17, 23, 23, 24, 21, 18, 16, 14, 12, 11, 8.9, 7.61, 6.96, 5.7, -0.3]⟩,
  ⟨true, 8, 7, [5, 5, 5, 6, 6, 7, 8, 8, 9, 7, 5, 6, 10, 11, 11, 10, 6, 4, 2, -5, -7.9, -11.25, -14.05, -15.9, -0.4]⟩,
  ⟨false, 8, 7, [-5, -5, -5, -5, -5, -5, -5, -5, -5, 3, -4, -4, 1, -3, -6, -10, -13, -15, -16, -16, -14.9, -12.76, -10.74, -9.1, 0.3]⟩,
  ⟨true, 8, 8, [8, 8, 8, 8, 8, 8, 8, 7, 7, 2, -1, 9, 8, 4, 3, 1, -1, -4, -6, -7, -7.0, -4.87, -3.54, -2.0, 0.3]⟩,
  ⟨false, 8, 8, [-18, -18, -18, -18, -19, -19, -19, -19, -19, -11, -17, -13, -20, -17, -16, -17, -15, -11, -10, -4, -2.1, -0.06, 1.64, 2.1, 0.0]⟩
]

def igrfRowsC8 : List CoeffRow := [
  ⟨true, 9, 0, [8, 8, 8, 8, 8, 8, 8, 8, 8, 5, 3, 4, 4, 8, 8, 7, 5, 5, 4, 4, 5.0, 5.58, 5.50, 5.4, 0.0]⟩,
  ⟨true, 9, 1, [10, 10, 10, 10, 10, 10, 10, 10, 10, -21, -7, 9, 6, 10, 10, 10, 10, 10, 9, 9, 9.4, 9.76, 9.45, 8.8, 0.0]⟩,
  ⟨false, 9, 1, [-20, -20, -20, -20, -20, -20, -20, -20, -21, -27, -24, -11, -18, -22, -21, -21, -21, -21, -20, -20, -19.7, -20.11, -20.54, -21.6, 0.0]⟩,
  ⟨true, 9, 2, [1, 1, 1, 1, 1, 1, 1, 1, 1, 1, -1, -4, 0, 2, 2, 2, 1, 1, 1, 3, 3.0, 3.58, 3.45, 3.1, 0.0]⟩,
  ⟨false, 9, 2, [14, 14, 14, 14, 14, 14, 14, 15, 15, 17, 19, 12, 12, 15, 16, 16, 16, 15, 15, 15, 13.4, 12.69, 11.51, 10.8, 0.0]⟩,
  ⟨true, 9, 3, [-11, -11, -11, -11, -11, -11, -12, -12, -12, -11, -25, -5, -9, -13, -12, -12, -12, -12, -12, -10, -8.4, -6.94, -5.27, -3.3, 0.0]⟩,
  ⟨false, 9, 3, [5, 5, 5, 5, 5, 5, 5, 5, 5, 29, 12, 7, 2, 7, 6, 7, 9, 9, 11, 12, 12.5, 12.67, 12.75, 11.8, 0.0]⟩,
  ⟨true, 9, 4, [12, 12, 12, 12, 12, 12, 12, 11, 11, 3, 10, 2, 1, 10, 10, 10, 9, 9, 9, 8, 6.3, 5.01, 3.13, 0.7, 0.0]⟩,
  ⟨false, 9, 4, [-3, -3, -3, -3, -3, -3, -3, -3, -3, -9, 2, 6, 0, -4, -4, -4, -5, -6, -7, -6, -6.2, -6.72, -7.14, -6.8, 0.0]⟩,
  ⟨true, 9, 5, [1, 1, 1, 1, 1, 1, 1, 1, 1, 16, 5, 4, 4, -1, -1, -1, -3, -3, -4, -8, -8.9, -10.76, -12.38, -13.3, 0.0]⟩
]

def igrfRowsC9 : List CoeffRow := [
  ⟨false, 9, 5, [-2, -2, -2, -2, -2, -2, -2, -3, -3, 4, 2, -2, -3, -5, -5, -5, -6, -6, -7, -8, -8.4, -8.16, -7.42, -6.9, 0.0]⟩,
  ⟨true, 9, 6, [-2, -2, -2, -2, -2, -2, -2, -2, -2, -3, -5, 1, -1, -1, 0, -1, -1, -1, -2, -1, -1.5, -1.25, -0.76, -0.1, 0.0]⟩,
  ⟨false, 9, 6, [8, 8, 8, 8, 9, 9, 9, 9, 9, 9, 8, 10, 9, 10, 10, 10, 9, 9, 9, 8, 8.4, 8.10, 7.97, 7.8, 0.0]⟩,
  ⟨true, 9, 7, [2, 2, 2, 2, 2, 2, 3, 3, 3, -4, -2, 2, -2, 5, 3, 4, 7, 7, 7, 10, 9.3, 8.76, 8.43, 8.7, 0.0]⟩,
  ⟨false, 9, 7, [10, 10, 10, 10, 10, 10, 10, 11, 11, 6, 8, 7, 8, 10, 11, 11, 10, 9, 8, 5, 3.8, 2.92, 2.14, 1.0, 0.0]⟩,
  ⟨true, 9, 8, [-1, 0, 0, 0, 0, 0, 0, 0, 1, -3, 3, 2, 3, 1, 1, 1, 2, 1, 1, -2, -4.3, -6.66, -8.42, -9.1, 0.0]⟩,
  ⟨false, 9, 8, [-2, -2, -2, -2, -2, -2, -2, -2, -2, 1, -11, -6, 0, -4, -2, -3, -6, -7, -7, -8, -8.2, -7.73, -6.08, -4.0, 0.0]⟩,
  ⟨true, 9, 9, [-1, -1, -1, -1, -1, -1, -2, -2, -2, -4, 8, 5, -1, -2, -1, -2, -5, -5, -6, -8, -8.2, -9.22, -10.08, -10.5, 0.0]⟩,
  ⟨false, 9, 9, [2, 2, 2, 2, 2, 2, 2, 2, 2, 8, -7, 5, 5, 1, 1, 1, 2, 2, 2, 3, 4.8, 6.01, 7.01, 8.4, 0.0]⟩,
  ⟨true, 10, 0, [-3, -3, -3, -3, -3, -3, -3, -3, -3, -3, -8, -3, 1, -2, -3, -3, -4, -4, -3, -3, -2.6, -2.17, -1.94, -1.9, 0.0]⟩
]

def igrfRowsC10 : List CoeffRow := [
  ⟨true, 10, 1, [-4, -4, -4, -4, -4, -4, -4, -4, -4, 11, 4, -5, -3, -3, -3, -3, -4, -4, -4, -6, -6.0, -6.12, -6.24, -6.3, 0.0]⟩,
  ⟨false, 10, 1, [2, 2, 2, 2, 2, 2, 2, 2, 2, 5, 13, -4, 4, 2, 1, 1, 1, 1, 2, 1, 1.7, 2.19, 2.73, 3.2, 0.0]⟩,
  ⟨true, 10, 2, [2, 2, 2, 2, 2, 2, 2, 2, 2, 1, -1, -1, 4, 2, 2, 2, 2, 3, 2, 2, 1.7, 1.42, 0.89, 0.1, 0.0]⟩,
  ⟨false, 10, 2, [1, 1, 1, 1, 1, 1, 1, 1, 1, 1, -2, 0, 1, 1, 1, 1, 0, 0, 1, 0, 0.0, 0.10, -0.10, -0.4, 0.0]⟩,
  ⟨true, 10, 3, [-5, -5, -5, -5, -5, -5, -5, -5, -5, 2, 13, 2, 0, -5, -5, -5, -5, -5, -5, -4, -3.1, -2.35, -1.07, 0.5, 0.0]⟩,
  ⟨false, 10, 3, [2, 2, 2, 2, 2, 2, 2, 2, 2, -20, -10, -8, 0, 2, 3, 3, 3, 3, 3, 4, 4.0, 4.46, 4.71, 4.6, 0.0]⟩,
  ⟨true, 10, 4, [-2, -2, -2, -2, -2, -2, -2, -2, -2, -5, -4, -3, -1, -2, -1, -2, -2, -2, -2, -1, -0.5, -0.15, -0.16, -0.5, 0.0]⟩,
  ⟨false, 10, 4, [6, 6, 6, 6, 6, 6, 6, 6, 6, -1, 2, -2, 2, 6, 4, 4, 6, 6, 6, 5, 4.9, 4.76, 4.44, 4.4, 0.0]⟩,
  ⟨true, 10, 5, [6, 6, 6, 6, 6, 6, 6, 6, 6, -1, 4, 7, 4, 4, 6, 5, 5, 5, 4, 4, 3.7, 3.06, 2.45, 1.8, 0.0]⟩,
  ⟨false, 10, 5, [-4, -4, -4, -4, -4, -4, -4, -4, -4, -6, -3, -4, -5, -4, -4, -4, -4, -4, -4, -5, -5.9, -6.58, -7.22, -7.9, 0.0]⟩
]

def igrfRowsC11 : List CoeffRow := [
  ⟨true, 10, 6, [4, 4, 4, 4, 4, 4, 4, 4, 4, 8, 12, 4, 6, 4, 4, 4, 3, 3, 3, 2, 1.0, 0.29, -0.33, -0.7, 0.0]⟩,
  ⟨false, 10, 6, [0, 0, 0, 0, 0, 0, 0, 0, 0, 6, 6, 1, 1, 0, 0, -1, 0, 0, 0, -1, -1.2, -1.01, -0.96, -0.6, 0.0]⟩,
  ⟨true, 10, 7, [0, 0, 0, 0, 0, 0, 0, 0, 0, -1, 3, -2, 1, 0, 1, 1, 1, 1, 1, 2, 2.0, 2.06, 2.13, 2.1, 0.0]⟩,
  ⟨false, 10, 7, [-2, -2, -2, -2, -2, -2, -2, -1, -1, -4, -3, -3, -1, -2, -1, -1, -1, -1, -2, -2, -2.9, -3.47, -3.95, -4.2, 0.0]⟩,
  ⟨true, 10, 8, [2, 2, 2, 1, 1, 1, 1, 2, 2, -3, 2, 6, -1, 2, 0, 0, 2, 2, 3, 5, 4.2, 3.77, 3.09, 2.4, 0.0]⟩,
  ⟨false, 10, 8, [4, 4, 4, 4, 4, 4, 4, 4, 4, -2, 6, 7, 6, 3, 3, 3, 4, 4, 3, 1, 0.2, -0.86, -1.99, -2.8, 0.0]⟩,
  ⟨true, 10, 9, [2, 2, 2, 2, 3, 3, 3, 3, 3, 5, 10, -2, 2, 2, 3, 3, 3, 3, 3, 1, 0.3, -0.21, -1.03, -1.8, 0.0]⟩,
  ⟨false, 10, 9, [0, 0, 0, 0, 0, 0, 0, 0, 0, 0, 11, -1, 0, 0, 1, 1, 0, 0, -1, -2, -2.2, -2.31, -1.97, -1.2, 0.0]⟩,
  ⟨true, 10, 10, [0, 0, 0, 0, 0, 0, 0, 0, 0, -2, 3, 0, 0, 0, -1, -1, 0, 0, 0, 0, -1.1, -2.09, -2.80, -3.6, 0.0]⟩,
  ⟨false, 10, 10, [-6, -6, -6, -6, -6, -6, -6, -6, -6, -2, 8, -3, -7, -6, -4, -5, -6, -6, -6, -7, -7.4, -7.93, -8.31, -8.7, 0.0]⟩
]

def igrfRowsC12 : List CoeffRow := [
  ⟨true, 11, 0, [0, 0, 0, 0, 0, 0, 0, 0, 0, 0, 0, 0, 0, 0, 0, 0, 0, 0, 0, 0, 2.7, 2.95, 3.05, 3.1, 0.0]⟩,
  ⟨true, 11, 1, [0, 0, 0, 0, 0, 0, 0, 0, 0, 0, 0, 0, 0, 0, 0, 0, 0, 0, 0, 0, -1.7, -1.60, -1.48, -1.5, 0.0]⟩,
  ⟨false, 11, 1, [0, 0, 0, 0, 0, 0, 0, 0, 0, 0, 0, 0, 0, 0, 0, 0, 0, 0, 0, 0, 0.1, 0.26, 0.13, -0.1, 0.0]⟩,
  ⟨true, 11, 2, [0, 0, 0, 0, 0, 0, 0, 0, 0, 0, 0, 0, 0, 0, 0, 0, 0, 0, 0, 0, -1.9, -1.88, -2.03, -2.3, 0.0]⟩,
  ⟨false, 11, 2, [0, 0, 0, 0, 0, 0, 0, 0, 0, 0, 0, 0, 0, 0, 0, 0, 0, 0, 0, 0, 1.3, 1.44, 1.67, 2.0, 0.0]⟩,
  ⟨true, 11, 3, [0, 0, 0, 0, 0, 0, 0, 0, 0, 0, 0, 0, 0, 0, 0, 0, 0, 0, 0, 0, 1.5, 1.44, 1.65, 2.0, 0.0]⟩,
  ⟨false, 11, 3, [0, 0, 0, 0, 0, 0, 0, 0, 0, 0, 0, 0, 0, 0, 0, 0, 0, 0, 0, 0, -0.9, -0.77, -0.66, -0.7, 0.0]⟩,
  ⟨true, 11, 4, [0, 0, 0, 0, 0, 0, 0, 0, 0, 0, 0, 0, 0, 0, 0, 0, 0, 0, 0, 0, -0.1, -0.31, -0.51, -0.8, 0.0]⟩,
  ⟨false, 11, 4, [0, 0, 0, 0, 0, 0, 0, 0, 0, 0, 0, 0, 0, 0, 0, 0, 0, 0, 0, 0, -2.6, -2.27, -1.76, -1.1, 0.0]⟩,
  ⟨true, 11, 5, [0, 0, 0, 0, 0, 0, 0, 0, 0, 0, 0, 0, 0, 0, 0, 0, 0, 0, 0, 0, 0.1, 0.29, 0.54, 0.6, 0.0]⟩
]

def igrfRowsC13 : List CoeffRow := [
  ⟨false, 11, 5, [0, 0, 0, 0, 0, 0, 0, 0, 0, 0, 0, 0, 0, 0, 0, 0, 0, 0, 0, 0, 0.9, 0.90, 0.85, 0.8, 0.0]⟩,
  ⟨true, 11, 6, [0, 0, 0, 0, 0, 0, 0, 0, 0, 0, 0, 0, 0, 0, 0, 0, 0, 0, 0, 0, -0.7, -0.79, -0.79, -0.7, 0.0]⟩,
  ⟨false, 11, 6, [0, 0, 0, 0, 0, 0, 0, 0, 0, 0, 0, 0, 0, 0, 0, 0, 0, 0, 0, 0, -0.7, -0.58, -0.39, -0.2, 0.0]⟩,
  ⟨true, 11, 7, [0, 0, 0, 0, 0, 0, 0, 0, 0, 0, 0, 0, 0, 0, 0, 0, 0, 0, 0, 0, 0.7, 0.53, 0.37, 0.2, 0.0]⟩,
  ⟨false, 11, 7, [0, 0, 0, 0, 0, 0, 0, 0, 0, 0, 0, 0, 0, 0, 0, 0, 0, 0, 0, 0, -2.8, -2.69, -2.51, -2.2, 0.0]⟩,
  ⟨true, 11, 8, [0, 0, 0, 0, 0, 0, 0, 0, 0, 0, 0, 0, 0, 0, 0, 0, 0, 0, 0, 0, 1.7, 1.80, 1.79, 1.7, 0.0]⟩,
  ⟨false, 11, 8, [0, 0, 0, 0, 0, 0, 0, 0, 0, 0, 0, 0, 0, 0, 0, 0, 0, 0, 0, 0, -0.9, -1.08, -1.27, -1.4, 0.0]⟩,
  ⟨true, 11, 9, [0, 0, 0, 0, 0, 0, 0, 0, 0, 0, 0, 0, 0, 0, 0, 0, 0, 0, 0, 0, 0.1, 0.16, 0.12, -0.2, 0.0]⟩,
  ⟨false, 11, 9, [0, 0, 0, 0, 0, 0, 0, 0, 0, 0, 0, 0, 0, 0, 0, 0, 0, 0, 0, 0, -1.2, -1.58, -2.11, -2.5, 0.0]⟩,
  ⟨true, 11, 10, [0, 0, 0, 0, 0, 0, 0, 0, 0, 0, 0, 0, 0, 0, 0, 0, 0, 0, 0, 0, 1.2, 0.96, 0.75, 0.4, 0.0]⟩
]

def igrfRowsC14 : List CoeffRow := [
  ⟨false, 11, 10, [0, 0, 0, 0, 0, 0, 0, 0, 0, 0, 0, 0, 0, 0, 0, 0, 0, 0, 0, 0, -1.9, -1.90, -1.94, -2.0, 0.0]⟩,
  ⟨true, 11, 11, [0, 0, 0, 0, 0, 0, 0, 0, 0, 0, 0, 0, 0, 0, 0, 0, 0, 0, 0, 0, 4.0, 3.99, 3.75, 3.5, 0.0]⟩,
  ⟨false, 11, 11, [0, 0, 0, 0, 0, 0, 0, 0, 0, 0, 0, 0, 0, 0, 0, 0, 0, 0, 0, 0, -0.9, -1.39, -1.86, -2.4, 0.0]⟩,
  ⟨true, 12, 0, [0, 0, 0, 0, 0, 0, 0, 0, 0, 0, 0, 0, 0, 0, 0, 0, 0, 0, 0, 0, -2.2, -2.15, -2.12, -1.9, 0.0]⟩,
  ⟨true, 12, 1, [0, 0, 0, 0, 0, 0, 0, 0, 0, 0, 0, 0, 0, 0, 0, 0, 0, 0, 0, 0, -0.3, -0.29, -0.21, -0.2, 0.0]⟩,
  ⟨false, 12, 1, [0, 0, 0, 0, 0, 0, 0, 0, 0, 0, 0, 0, 0, 0, 0, 0, 0, 0, 0, 0, -0.4, -0.55, -0.87, -1.1, 0.0]⟩,
  ⟨true, 12, 2, [0, 0, 0, 0, 0, 0, 0, 0, 0, 0, 0, 0, 0, 0, 0, 0, 0, 0, 0, 0, 0.2, 0.21, 0.30, 0.4, 0.0]⟩,
  ⟨false, 12, 2, [0, 0, 0, 0, 0, 0, 0, 0, 0, 0, 0, 0, 0, 0, 0, 0, 0, 0, 0, 0, 0.3, 0.23, 0.27, 0.4, 0.0]⟩,
  ⟨true, 12, 3, [0, 0, 0, 0, 0, 0, 0, 0, 0, 0, 0, 0, 0, 0, 0, 0, 0, 0, 0, 0, 0.9, 0.89, 1.04, 1.2, 0.0]⟩,
  ⟨false, 12, 3, [0, 0, 0, 0, 0, 0, 0, 0, 0, 0, 0, 0, 0, 0, 0, 0, 0, 0, 0, 0, 2.5, 2.38, 2.13, 1.9, 0.0]⟩
]

def igrfRowsC15 : List CoeffRow := [
  ⟨true, 12, 4, [0, 0, 0, 0, 0, 0, 0, 0, 0, 0, 0, 0, 0, 0, 0, 0, 0, 0, 0, 0, -0.2, -0.38, -0.63, -0.8, 0.0]⟩,
  ⟨false, 12, 4, [0, 0, 0, 0, 0, 0, 0, 0, 0, 0, 0, 0, 0, 0, 0, 0, 0, 0, 0, 0, -2.6, -2.63, -2.49, -2.2, 0.0]⟩,
  ⟨true, 12, 5, [0, 0, 0, 0, 0, 0, 0, 0, 0, 0, 0, 0, 0, 0, 0, 0, 0, 0, 0, 0, 0.9, 0.96, 0.95, 0.9, 0.0]⟩,
  ⟨false, 12, 5, [0, 0, 0, 0, 0, 0, 0, 0, 0, 0, 0, 0, 0, 0, 0, 0, 0, 0, 0, 0, 0.7, 0.61, 0.49, 0.3, 0.0]⟩,
  ⟨true, 12, 6, [0, 0, 0, 0, 0, 0, 0, 0, 0, 0, 0, 0, 0, 0, 0, 0, 0, 0, 0, 0, -0.5, -0.30, -0.11, 0.1, 0.0]⟩,
  ⟨false, 12, 6, [0, 0, 0, 0, 0, 0, 0, 0, 0, 0, 0, 0, 0, 0, 0, 0, 0, 0, 0, 0, 0.3, 0.40, 0.59, 0.7, 0.0]⟩,
  ⟨true, 12, 7, [0, 0, 0, 0, 0, 0, 0, 0, 0, 0, 0, 0, 0, 0, 0, 0, 0, 0, 0, 0, 0.3, 0.46, 0.52, 0.5, 0.0]⟩,
  ⟨false, 12, 7, [0, 0, 0, 0, 0, 0, 0, 0, 0, 0, 0, 0, 0, 0, 0, 0, 0, 0, 0, 0, 0.0, 0.01, 0.00, -0.1, 0.0]⟩,
  ⟨true, 12, 8, [0, 0, 0, 0, 0, 0, 0, 0, 0, 0, 0, 0, 0, 0, 0, 0, 0, 0, 0, 0, -0.3, -0.35, -0.39, -0.3, 0.0]⟩,
  ⟨false, 12, 8, [0, 0, 0, 0, 0, 0, 0, 0, 0, 0, 0, 0, 0, 0, 0, 0, 0, 0, 0, 0, 0.0, 0.02, 0.13, 0.3, 0.0]⟩
]

def igrfRowsC16 : List CoeffRow := [
  ⟨true, 12, 9, [0, 0, 0, 0, 0, 0, 0, 0, 0, 0, 0, 0, 0, 0, 0, 0, 0, 0, 0, 0, -0.4, -0.36, -0.37, -0.4, 0.0]⟩,
  ⟨false, 12, 9, [0, 0, 0, 0, 0, 0, 0, 0, 0, 0, 0, 0, 0, 0, 0, 0, 0, 0, 0, 0, 0.3, 0.28, 0.27, 0.2, 0.0]⟩,
  ⟨true, 12, 10, [0, 0, 0, 0, 0, 0, 0, 0, 0, 0, 0, 0, 0, 0, 0, 0, 0, 0, 0, 0, -0.1, 0.08, 0.21, 0.2, 0.0]⟩,
  ⟨false, 12, 10, [0, 0, 0, 0, 0, 0, 0, 0, 0, 0, 0, 0, 0, 0, 0, 0, 0, 0, 0, 0, -0.9, -0.87, -0.86, -0.9, 0.0]⟩,
  ⟨true, 12, 11, [0, 0, 0, 0, 0, 0, 0, 0, 0, 0, 0, 0, 0, 0, 0, 0, 0, 0, 0, 0, -0.2, -0.49, -0.77, -0.9, 0.0]⟩,
  ⟨false, 12, 11, [0, 0, 0, 0, 0, 0, 0, 0, 0, 0, 0, 0, 0, 0, 0, 0, 0, 0, 0, 0, -0.4, -0.34, -0.23, -0.1, 0.0]⟩,
  ⟨true, 12, 12, [0, 0, 0, 0, 0, 0, 0, 0, 0, 0, 0, 0, 0, 0, 0, 0, 0, 0, 0, 0, -0.4, -0.08, 0.04, 0.0, 0.0]⟩,
  ⟨false, 12, 12, [0, 0, 0, 0, 0, 0, 0, 0, 0, 0, 0, 0, 0, 0, 0, 0, 0, 0, 0, 0, 0.8, 0.88, 0.87, 0.7, 0.0]⟩,
  ⟨true, 13, 0, [0, 0, 0, 0, 0, 0, 0, 0, 0, 0, 0, 0, 0, 0, 0, 0, 0, 0, 0, 0, -0.2, -0.16, -0.09, 0.0, 0.0]⟩,
  ⟨true, 13, 1, [0, 0, 0, 0, 0, 0, 0, 0, 0, 0, 0, 0, 0, 0, 0, 0, 0, 0, 0, 0, -0.9, -0.88, -0.89, -0.9, 0.0]⟩
]

def igrfRowsC17 : List CoeffRow := [
  ⟨false, 13, 1, [0, 0, 0, 0, 0, 0, 0, 0, 0, 0, 0, 0, 0, 0, 0, 0, 0, 0, 0, 0, -0.9, -0.76, -0.87, -0.9, 0.0]⟩,
  ⟨true, 13, 2, [0, 0, 0, 0, 0, 0, 0, 0, 0, 0, 0, 0, 0, 0, 0, 0, 0, 0, 0, 0, 0.3, 0.30, 0.31, 0.4, 0.0]⟩,
  ⟨false, 13, 2, [0, 0, 0, 0, 0, 0, 0, 0, 0, 0, 0, 0, 0, 0, 0, 0, 0, 0, 0, 0, 0.2, 0.33, 0.30, 0.4, 0.0]⟩,
  ⟨true, 13, 3, [0, 0, 0, 0, 0, 0, 0, 0, 0, 0, 0, 0, 0, 0, 0, 0, 0, 0, 0, 0, 0.1, 0.28, 0.42, 0.5, 0.0]⟩,
  ⟨false, 13, 3, [0, 0, 0, 0, 0, 0, 0, 0, 0, 0, 0, 0, 0, 0, 0, 0, 0, 0, 0, 0, 1.8, 1.72, 1.66, 1.6, 0.0]⟩,
  ⟨true, 13, 4, [0, 0, 0, 0, 0, 0, 0, 0, 0, 0, 0, 0, 0, 0, 0, 0, 0, 0, 0, 0, -0.4, -0.43, -0.45, -0.5, 0.0]⟩,
  ⟨false, 13, 4, [0, 0, 0, 0, 0, 0, 0, 0, 0, 0, 0, 0, 0, 0, 0, 0, 0, 0, 0, 0, -0.4, -0.54, -0.59, -0.5, 0.0]⟩,
  ⟨true, 13, 5, [0, 0, 0, 0, 0, 0, 0, 0, 0, 0, 0, 0, 0, 0, 0, 0, 0, 0, 0, 0, 1.3, 1.18, 1.08, 1.0, 0.0]⟩,
  ⟨false, 13, 5, [0, 0, 0, 0, 0, 0, 0, 0, 0, 0, 0, 0, 0, 0, 0, 0, 0, 0, 0, 0, -1.0, -1.07, -1.14, -1.2, 0.0]⟩,
  ⟨true, 13, 6, [0, 0, 0, 0, 0, 0, 0, 0, 0, 0, 0, 0, 0, 0, 0, 0, 0, 0, 0, 0, -0.4, -0.37, -0.31, -0.2, 0.0]⟩
]

def igrfRowsC18 : List CoeffRow := [
  ⟨false, 13, 6, [0, 0, 0, 0, 0, 0, 0, 0, 0, 0, 0, 0, 0, 0, 0, 0, 0, 0, 0, 0, -0.1, -0.04, -0.07, -0.1, 0.0]⟩,
  ⟨true, 13, 7, [0, 0, 0, 0, 0, 0, 0, 0, 0, 0, 0, 0, 0, 0, 0, 0, 0, 0, 0, 0, 0.7, 0.75, 0.78, 0.8, 0.0]⟩,
  ⟨false, 13, 7, [0, 0, 0, 0, 0, 0, 0, 0, 0, 0, 0, 0, 0, 0, 0, 0, 0, 0, 0, 0, 0.7, 0.63, 0.54, 0.4, 0.0]⟩,
  ⟨true, 13, 8, [0, 0, 0, 0, 0, 0, 0, 0, 0, 0, 0, 0, 0, 0, 0, 0, 0, 0, 0, 0, -0.4, -0.26, -0.18, -0.1, 0.0]⟩,
  ⟨false, 13, 8, [0, 0, 0, 0, 0, 0, 0, 0, 0, 0, 0, 0, 0, 0, 0, 0, 0, 0, 0, 0, 0.3, 0.21, 0.10, -0.1, 0.0]⟩,
  ⟨true, 13, 9, [0, 0, 0, 0, 0, 0, 0, 0, 0, 0, 0, 0, 0, 0, 0, 0, 0, 0, 0, 0, 0.3, 0.35, 0.38, 0.3, 0.0]⟩,
  ⟨false, 13, 9, [0, 0, 0, 0, 0, 0, 0, 0, 0, 0, 0, 0, 0, 0, 0, 0, 0, 0, 0, 0, 0.6, 0.53, 0.49, 0.4, 0.0]⟩,
  ⟨true, 13, 10, [0, 0, 0, 0, 0, 0, 0, 0, 0, 0, 0, 0, 0, 0, 0, 0, 0, 0, 0, 0, -0.1, -0.05, 0.02, 0.1, 0.0]⟩,
  ⟨false, 13, 10, [0, 0, 0, 0, 0, 0, 0, 0, 0, 0, 0, 0, 0, 0, 0, 0, 0, 0, 0, 0, 0.3, 0.38, 0.44, 0.5, 0.0]⟩,
  ⟨true, 13, 11, [0, 0, 0, 0, 0, 0, 0, 0, 0, 0, 0, 0, 0, 0, 0, 0, 0, 0, 0, 0, 0.4, 0.41, 0.42, 0.5, 0.0]⟩
]

def igrfRowsC19 : List CoeffRow := [
  ⟨false, 13, 11, [0, 0, 0, 0, 0, 0, 0, 0, 0, 0, 0, 0, 0, 0, 0, 0, 0, 0, 0, 0, -0.2, -0.22, -0.25, -0.3, 0.0]⟩,
  ⟨true, 13, 12, [0, 0, 0, 0, 0, 0, 0, 0, 0, 0, 0, 0, 0, 0, 0, 0, 0, 0, 0, 0, 0.0, -0.10, -0.26, -0.4, 0.0]⟩,
  ⟨false, 13, 12, [0, 0, 0, 0, 0, 0, 0, 0, 0, 0, 0, 0, 0, 0, 0, 0, 0, 0, 0, 0, -0.5, -0.57, -0.53, -0.4, 0.0]⟩,
  ⟨true, 13, 13, [0, 0, 0, 0, 0, 0, 0, 0, 0, 0, 0, 0, 0, 0, 0, 0, 0, 0, 0, 0, 0.1, -0.18, -0.26, -0.3, 0.0]⟩,
  ⟨false, 13, 13, [0, 0, 0, 0, 0, 0, 0, 0, 0, 0, 0, 0, 0, 0, 0, 0, 0, 0, 0, 0, -0.9, -0.82, -0.79, -0.8, 0.0]⟩
]

/-- All 195 data rows, in source order. -/
def igrfRows : List CoeffRow :=
  igrfRowsC0 ++ igrfRowsC1 ++ igrfRowsC2 ++ igrfRowsC3 ++ igrfRowsC4 ++ igrfRowsC5 ++ igrfRowsC6 ++ igrfRowsC7 ++ igrfRowsC8 ++ igrfRowsC9 ++ igrfRowsC10 ++ igrfRowsC11 ++ igrfRowsC12 ++ igrfRowsC13 ++ igrfRowsC14 ++ igrfRowsC15 ++ igrfRowsC16 ++ igrfRowsC17 ++ igrfRowsC18 ++ igrfRowsC19

/-- Raw column lookup into the parsed table: the value of coefficient
(g if isG, else h) of degree n, order m in epoch column idx; entries
no data row sets stay 0, as in the zero-initialised 15 x 15 matrices
of read_coefficients. -/
def colVal (isG : Bool) (idx : ℕ) (m n : ℕ) : ℚ :=
  match igrfRows.find? (fun r => r.isG == isG && r.n == n && r.m == m) with
  | some r => r.vals.getD idx 0
  | none => 0

/-- The coefficient set keyed by epoch y as first parsed (before the
final += correction): c[y][gh][m,n] = val[index of y]. The column of
the final key (2020) is the raw secular-variation column. A key not in
the epoch list (a KeyError in the source, reachable from no caller:
set_year only ever uses keys drawn from the list) is mapped to 0. -/
def parsedCoeff (isG : Bool) (y : ℤ) (m n : ℕ) : ℚ :=
  colVal isG (yearsInt.indexOf y) m n

/-- The coefficient table after read_coefficients finishes: the entry
under the final key has the second-to-last epoch set added to it once
(c[years[-1]][gh] += c[years[-2]][gh]); all other entries are the
parsed columns. -/
def tableCoeff (isG : Bool) (y : ℤ) (m n : ℕ) : ℚ :=
  if y = lastYear then
    parsedCoeff isG lastYear m n + parsedCoeff isG sndLastYear m n
  else parsedCoeff isG y m n

/-- The raw secular-variation rate column (nT per year), i.e. the
parsed value under the final key before the += correction. -/
def svRate (isG : Bool) (m n : ℕ) : ℚ := parsedCoeff isG lastYear m n

/-- The membership test year in yearlist of set_year (the requested
epoch, a real number, compared elementwise against the integer keys). -/
def yearMem (year : ℚ) : Prop := ∃ i ∈ yearsInt, (i : ℚ) = year

instance (year : ℚ) : Decidable (yearMem year) := List.decidableBEx _ yearsInt

/-- The dictionary key selected by self.coefficients[year] when the
membership test succeeds: a rational equal to an integer key hashes to
that integer, which is its numerator. -/
def yearKeyOf (year : ℚ) : ℤ := year.num

/-- np.min(yearlist). -/
def minYear : ℤ := (yearsInt.min?).getD 0

/-- np.max(yearlist). -/
def maxYear : ℤ := (yearsInt.max?).getD 0

/-- The bracketing epochs and interpolation fraction computed by the
non-tabulated branch of set_year: clamp the epoch into
[min yearlist, max yearlist], take y0 as the largest tabulated key at
or below it, y1 as the smallest tabulated key above y0 (the last key
if none), and dy = 0 for a degenerate span, else (year-y0)/(y1-y0). -/
def interpParams (year : ℚ) : ℤ × ℤ × ℚ :=
  let yc : ℚ := min (maxYear : ℚ) (max year (minYear : ℚ))
  let y0 : ℤ := ((yearsInt.filter (fun (y : ℤ) => decide ((y : ℚ) ≤ yc))).max?).getD 0
  let cands := yearsInt.filter (fun (y : ℤ) => decide (y0 < y))
  let y1 : ℤ := if cands.isEmpty then lastYear else (cands.min?).getD 0
  let dy : ℚ := if y1 = y0 then 0 else (yc - (y0 : ℚ)) / ((y1 : ℚ) - (y0 : ℚ))
  (y0, y1, dy)

/-- scipy.misc.factorial semantics: factorial on nonnegative integers,
0 on negative arguments. -/
def factS (z : ℤ) : ℚ := if z < 0 then 0 else (z.toNat).factorial

/-- The Schmidt quasi-normalization matrix entry at order m, degree n:
sqrt((2 - [m=0]) (n-m)! / (n+m)!) (-1)^m, with the scipy convention
that the factorial of a negative number is 0 (so entries below the
diagonal, m > n, are 0). -/
noncomputable def schmidtNorm (m n : ℕ) : ℝ :=
  Real.sqrt (((if m = 0 then 1 else 2) * factS ((n : ℤ) - m) / factS ((n : ℤ) + m) : ℚ) : ℝ)
    * (-1) ^ m

/-- The mutable state of an igrfModel instance: its coefficient table
(instance attribute set by __init__ from read_coefficients) and the
cached normalized coefficient arrays plus requested year set by
set_year. Real-valued because set_year overwrites table entries with
Schmidt-normalized (irrational) values through the gcoeff alias. -/
structure IgrfState where
  tableg : ℤ → ℕ → ℕ → ℝ
  tableh : ℤ → ℕ → ℕ → ℝ
  gcoeff : ℕ → ℕ → ℝ
  hcoeff : ℕ → ℕ → ℝ
  year : ℚ

/-- The state right after __init__ stores read_coefficients() and
before set_year runs: the table holds the parsed rational data, and no
cached coefficient arrays exist yet (modelled as 0). -/
noncomputable def initState : IgrfState where
  tableg := fun y m n => ((tableCoeff true y m n : ℚ) : ℝ)
  tableh := fun y m n => ((tableCoeff false y m n : ℚ) : ℝ)
  gcoeff := fun _ _ => 0
  hcoeff := fun _ _ => 0
  year := 0

/-- set_year with an explicit year. If the year is a table key, the
cached arrays are aliases of the table entries, so the trailing
in-place multiplication by the Schmidt matrix updates the stored table
entry as well as the cache; otherwise a fresh interpolated array is
built from the bracketing entries and only the cache is normalized. -/
noncomputable def setYear (year : ℚ) (s : IgrfState) : IgrfState :=
  if yearMem year then
    let y := yearKeyOf year
    let g : ℕ → ℕ → ℝ := fun m n => s.tableg y m n * schmidtNorm m n
    let h : ℕ → ℕ → ℝ := fun m n => s.tableh y m n * schmidtNorm m n
    { tableg := fun z => if z = y then g else s.tableg z
      tableh := fun z => if z = y then h else s.tableh z
      gcoeff := g
      hcoeff := h
      year := year }
  else
    let p := interpParams year
    { tableg := s.tableg
      tableh := s.tableh
      gcoeff := fun m n =>
        (s.tableg p.1 m n + (p.2.2 : ℝ) * (s.tableg p.2.1 m n - s.tableg p.1 m n))
          * schmidtNorm m n
      hcoeff := fun m n =>
        (s.tableh p.1 m n + (p.2.2 : ℝ) * (s.tableh p.2.1 m n - s.tableh p.1 m n))
          * schmidtNorm m n
      year := year }

/-- set_year as called, with its optional argument: a missing year is
replaced by the current UTC year time.gmtime()[0], passed here as the
explicit parameter nowUTC. -/
noncomputable def setYearOpt (yearArg : Option ℚ) (nowUTC : ℤ) (s : IgrfState) : IgrfState :=
  setYear (match yearArg with
            | none => ((nowUTC : ℤ) : ℚ)
            | some y => y) s

/-- Earth radius in metres, the class attribute Re. -/
noncomputable def ReE : ℝ := 6371.20e3

/-- Degrees-to-radians factor, the class attribute dtor. -/
noncomputable def dtor : ℝ := Real.pi / 180

/-- WGS-84 squared equatorial radius in square metres, class attribute a2. -/
noncomputable def a2 : ℝ := 40680631.6e6

/-- WGS-84 squared polar radius in square metres, class attribute b2. -/
noncomputable def b2 : ℝ := 40408296.0e6

/-- The vectorized spherical-harmonic evaluation of the method
spherical, for coefficient arrays g, h (the cached, Schmidt-normalized
gcoeff/hcoeff) and Legendre matrices P, dP standing for the
scipy.special.lpmn output at cos of the clamped colatitude. The cached
arrays hold 15 x 15 entries, so the slice gcoeff[0:degree+1, 0:degree+1]
has min(degree+1, 15) rows while lpmn returns degree+1 rows; their
elementwise product raises a numpy broadcast error unless
degree + 1 <= 15, modelled as the none result. On success the result is
the tuple (Br, Btheta, Bphi, V) of the four dictionary entries, with V
as computed when potential=True. -/
noncomputable def sphericalVec (g h P dP : ℕ → ℕ → ℝ) (r θ φ : ℝ) (degree : ℕ) :
    Option (ℝ × ℝ × ℝ × ℝ) :=
  if degree + 1 ≤ 15 then
    let θc : ℝ := max 1e-6 (min θ (Real.pi - 1e-6))
    let dPθ : ℕ → ℕ → ℝ := fun m n => dP m n * (-1 * Real.sin θc)
    let Rr : ℝ := |ReE / r|
    let rfac : ℕ → ℝ := fun n => Rr ^ (n + 2)
    let msum : ℕ → ℝ := fun n =>
      (∑ m ∈ Finset.range (degree + 1), g m n * P m n * Real.cos ((m : ℝ) * φ)) +
      (∑ m ∈ Finset.range (degree + 1), h m n * P m n * Real.sin ((m : ℝ) * φ))
    let V : ℝ := ReE * ∑ n ∈ Finset.range (degree + 1), msum n * (rfac n / Rr)
    let Br : ℝ := ∑ n ∈ Finset.range (degree + 1), msum n * (((n : ℝ) + 1) * rfac n)
    let msum2 : ℕ → ℝ := fun n =>
      -(∑ m ∈ Finset.range (degree + 1), g m n * P m n * ((m : ℝ) * Real.sin ((m : ℝ) * φ))) +
      (∑ m ∈ Finset.range (degree + 1), h m n * P m n * ((m : ℝ) * Real.cos ((m : ℝ) * φ)))
    let Bφv : ℝ := -(∑ n ∈ Finset.range (degree + 1), msum2 n * rfac n) / Real.sin θc
    let msum3 : ℕ → ℝ := fun n =>
      (∑ m ∈ Finset.range (degree + 1), g m n * dPθ m n * Real.cos ((m : ℝ) * φ)) +
      (∑ m ∈ Finset.range (degree + 1), h m n * dPθ m n * Real.sin ((m : ℝ) * φ))
    let Bθv : ℝ := -(∑ n ∈ Finset.range (degree + 1), msum3 n * rfac n)
    some (Br, Bθv, Bφv, V)
  else none

/-- The scalar reference implementation _spherical0: the explicit
(n, m) double sum over 0 <= m <= n <= degree, returning
(Br, -Btheta, -Bphi / sin theta, V * Re) exactly as written, with the
same abstract Legendre matrices P, dP (here taken at cos of the raw,
unclamped colatitude). -/
noncomputable def spherical0 (g h P dP : ℕ → ℕ → ℝ) (r θ φ : ℝ) (degree : ℕ) :
    ℝ × ℝ × ℝ × ℝ :=
  let dPθ : ℕ → ℕ → ℝ := fun m n => dP m n * (-1 * Real.sin θ)
  let V : ℝ := ∑ n ∈ Finset.range (degree + 1), ∑ m ∈ Finset.range (n + 1),
    (ReE / r) ^ (n + 1) *
      (g m n * Real.cos ((m : ℝ) * φ) + h m n * Real.sin ((m : ℝ) * φ)) * P m n
  let Br : ℝ := ∑ n ∈ Finset.range (degree + 1), ∑ m ∈ Finset.range (n + 1),
    (ReE / r) ^ (n + 2) * ((n : ℝ) + 1) *
      (g m n * Real.cos ((m : ℝ) * φ) + h m n * Real.sin ((m : ℝ) * φ)) * P m n
  let Bθ0 : ℝ := ∑ n ∈ Finset.range (degree + 1), ∑ m ∈ Finset.range (n + 1),
    (ReE / r) ^ (n + 2) *
      (g m n * Real.cos ((m : ℝ) * φ) + h m n * Real.sin ((m : ℝ) * φ)) * dPθ m n
  let Bφ0 : ℝ := ∑ n ∈ Finset.range (degree + 1), ∑ m ∈ Finset.range (n + 1),
    (ReE / r) ^ (n + 2) *
      (-(g m n) * Real.sin ((m : ℝ) * φ) + h m n * Real.cos ((m : ℝ) * φ)) * P m n * (m : ℝ)
  (Br, -Bθ0, -Bφ0 / Real.sin θ, V * ReE)

/-- The ENU components assembled by the method geographic from the
spherical field components (Br, Btheta, Bphi) returned by spherical and
the rotation angle psi of the geodetic conversion: (north, east, up)
with up = -down. -/
noncomputable def enuOfField (Br Bθ Bφ ψ : ℝ) : ℝ × ℝ × ℝ :=
  let north := -Bθ * Real.cos ψ - Br * Real.sin ψ
  let east := Bφ
  let down := Bθ * Real.sin ψ - Br * Real.cos ψ
  (north, east, -down)

/-- The total intensity the method geographic derives from its ENU
components: sqrt(north^2 + east^2 + up^2). -/
noncomputable def geographicMagnitude (Br Bθ Bφ ψ : ℝ) : ℝ :=
  let b := enuOfField Br Bθ Bφ ψ
  Real.sqrt (b.1 ^ 2 + b.2.1 ^ 2 + b.2.2 ^ 2)

/-- The Cartesian components assembled by the method cartesian from the
spherical result: the code inserts the field components themselves into
the polar-to-Cartesian formulas, bx = B_r sin(B_theta) cos(B_phi),
by = B_r sin(B_theta) sin(B_phi), bz = B_r cos(B_theta), reading the
theta and phi field components (in nanotesla) where position angles
belong. -/
noncomputable def cartesianOfField (Br Bθ Bφ : ℝ) : ℝ × ℝ × ℝ :=
  (Br * Real.sin Bθ * Real.cos Bφ,
   Br * Real.sin Bθ * Real.sin Bφ,
   Br * Real.cos Bθ)

/-- The total intensity derived from the Cartesian triple of the method
cartesian: sqrt(bx^2 + by^2 + bz^2). -/
noncomputable def cartesianMagnitude (Br Bθ Bφ : ℝ) : ℝ :=
  let b := cartesianOfField Br Bθ Bφ
  Real.sqrt (b.1 ^ 2 + b.2.1 ^ 2 + b.2.2 ^ 2)

/-- numpy.arctan2 with its quadrant handling. -/
noncomputable def atan2 (y x : ℝ) : ℝ :=
  if 0 < x then Real.arctan (y / x)
  else if x < 0 then
    if 0 ≤ y then Real.arctan (y / x) + Real.pi else Real.arctan (y / x) - Real.pi
  else
    if 0 < y then Real.pi / 2 else if y < 0 then -(Real.pi / 2) else 0

/-- The record built by convert_coordinates on its default
spherical=True path: the spherical position, the rotation angle psi
when the geodetic branch ran, and whether the error message for an
incomplete input was printed. -/
structure ConvResult where
  r : ℝ
  theta : ℝ
  phi : ℝ
  psi : Option ℝ
  warned : Bool

/-- convert_coordinates with the default flags (spherical=True,
cartesian=False): a complete Cartesian triple wins, then a complete
geodetic triple, and otherwise an incomplete spherical triple prints an
error message and falls through to the zero position r = theta = phi = 0
while a complete one is passed through unchanged. -/
noncomputable def convertCoordinates (rIn thetaIn phiIn xIn yIn zIn heightIn latIn lonIn :
    Option ℝ) : ConvResult :=
  match xIn, yIn, zIn with
  | some x, some y, some z =>
    let r := Real.sqrt (x ^ 2 + y ^ 2 + z ^ 2)
    { r := r, theta := Real.arccos (z / r), phi := atan2 y x, psi := none, warned := false }
  | _, _, _ =>
    match heightIn, latIn, lonIn with
    | some hgt, some lat, some lon =>
      let alpha := lat * dtor
      let φ := lon * dtor
      let ca := Real.cos alpha
      let sa := Real.sin alpha
      let N := a2 / Real.sqrt (a2 * ca ^ 2 + b2 * sa ^ 2)
      let betaa := Real.arctan ((b2 / a2 * N + hgt) / (N + hgt) * (sa / ca))
      { r := (N + hgt) * ca / Real.cos betaa, theta := Real.pi / 2 - betaa, phi := φ,
        psi := some (alpha - betaa), warned := false }
    | _, _, _ =>
      match rIn, thetaIn, phiIn with
      | some r, some θ, some φ =>
        { r := r, theta := θ, phi := φ, psi := none, warned := false }
      | _, _, _ =>
        { r := 0, theta := 0, phi := 0, psi := none, warned := true }

/-! Helper lemmas. -/

lemma schmidtNorm_zero_of_lt {m n : ℕ} (h : n < m) : schmidtNorm m n = 0 := by
  unfold schmidtNorm factS
  rw [if_pos (by omega : ((n : ℤ) - (m : ℤ)) < 0)]
  simp

lemma factS_one : factS 1 = 1 := by norm_num [factS, Nat.factorial]

lemma factS_zero : factS 0 = 1 := by norm_num [factS, Nat.factorial]

lemma factS_two : factS 2 = 2 := by
  norm_num [factS]
  rfl

lemma schmidtNorm_zero_one : schmidtNorm 0 1 = 1 := by
  unfold schmidtNorm
  norm_num [factS_one]

lemma schmidtNorm_one_one : schmidtNorm 1 1 = -1 := by
  unfold schmidtNorm
  norm_num [factS_zero, factS_two]

lemma yearMem_cast (i : ℤ) (hi : i ∈ yearsInt) : yearMem ((i : ℤ) : ℚ) := ⟨i, hi, rfl⟩

lemma yearsInt_lb {i : ℤ} (hi : i ∈ yearsInt) : (1900 : ℤ) ≤ i := by
  fin_cases hi <;> norm_num

lemma not_yearMem_of_lt {e : ℚ} (he : e < 1900) : ¬ yearMem e := by
  rintro ⟨i, hi, hc⟩
  have h1 : ((1900 : ℤ) : ℚ) ≤ (i : ℚ) := by exact_mod_cast yearsInt_lb hi
  rw [hc] at h1
  norm_num at h1
  linarith

lemma maxYear_eq : maxYear = 2020 := by decide

lemma minYear_eq : minYear = 1900 := by decide

lemma interpParams_below {e : ℚ} (he : e < 1900) : interpParams e = (1900, 1905, 0) := by
  unfold interpParams
  rw [minYear_eq, maxYear_eq,
    show max e ((1900 : ℤ) : ℚ) = ((1900 : ℤ) : ℚ) from
      max_eq_right (le_of_lt (by push_cast; linarith)),
    show min (((2020 : ℤ) : ℚ)) (((1900 : ℤ) : ℚ)) = ((1900 : ℤ) : ℚ) from
      min_eq_right (by push_cast; norm_num)]
  norm_num [yearsInt, lastYear, List.filter, List.max?, List.min?, List.foldl]

lemma lastYear_eq : lastYear = 2020 := by decide

lemma sndLastYear_eq : sndLastYear = 2015 := by decide

lemma tableCoeff_of_ne_last {y : ℤ} (hy : y ≠ 2020) (isG : Bool) (m n : ℕ) :
    tableCoeff isG y m n = parsedCoeff isG y m n := by
  unfold tableCoeff
  rw [lastYear_eq, if_neg hy]

lemma tableCoeff_last_eq (isG : Bool) (m n : ℕ) :
    tableCoeff isG 2020 m n = tableCoeff isG 2015 m n + svRate isG m n := by
  unfold tableCoeff svRate
  rw [lastYear_eq, sndLastYear_eq, if_pos rfl, if_neg (by decide)]
  ring

/-- The tabulated branch of set_year from the freshly parsed state, g
side: the cache receives the stored entry times the Schmidt matrix. -/
lemma setYear_tab_g (y : ℤ) (hy : y ∈ yearsInt) (m n : ℕ) :
    (setYear ((y : ℤ) : ℚ) initState).gcoeff m n
      = ((tableCoeff true y m n : ℚ) : ℝ) * schmidtNorm m n := by
  unfold setYear
  rw [if_pos (yearMem_cast y hy)]
  simp [yearKeyOf, initState]

/-- The tabulated branch of set_year from the freshly parsed state,
h side. -/
lemma setYear_tab_h (y : ℤ) (hy : y ∈ yearsInt) (m n : ℕ) :
    (setYear ((y : ℤ) : ℚ) initState).hcoeff m n
      = ((tableCoeff false y m n : ℚ) : ℝ) * schmidtNorm m n := by
  unfold setYear
  rw [if_pos (yearMem_cast y hy)]
  simp [yearKeyOf, initState]

/-- The interpolation branch of set_year from the freshly parsed state,
g side, with the bracketing parameters supplied explicitly. -/
lemma setYear_interp_g (e : ℚ) (hne : ¬ yearMem e) (y0 y1 : ℤ) (dy : ℚ)
    (hp : interpParams e = (y0, y1, dy)) (m n : ℕ) :
    (setYear e initState).gcoeff m n
      = ((tableCoeff true y0 m n
            + dy * (tableCoeff true y1 m n - tableCoeff true y0 m n) : ℚ) : ℝ)
          * schmidtNorm m n := by
  unfold setYear
  rw [if_neg hne]
  simp only [hp, initState]
  push_cast
  ring

/-- The interpolation branch of set_year from the freshly parsed state,
h side, with the bracketing parameters supplied explicitly. -/
lemma setYear_interp_h (e : ℚ) (hne : ¬ yearMem e) (y0 y1 : ℤ) (dy : ℚ)
    (hp : interpParams e = (y0, y1, dy)) (m n : ℕ) :
    (setYear e initState).hcoeff m n
      = ((tableCoeff false y0 m n
            + dy * (tableCoeff false y1 m n - tableCoeff false y0 m n) : ℚ) : ℝ)
          * schmidtNorm m n := by
  unfold setYear
  rw [if_neg hne]
  simp only [hp, initState]
  push_cast
  ring

lemma notMem_2016 : ¬ yearMem 2016 := by norm_num [yearMem, yearsInt]

lemma notMem_2017 : ¬ yearMem 2017 := by norm_num [yearMem, yearsInt]

lemma notMem_2018 : ¬ yearMem 2018 := by norm_num [yearMem, yearsInt]

lemma notMem_2019 : ¬ yearMem 2019 := by norm_num [yearMem, yearsInt]

lemma notMem_2100 : ¬ yearMem 2100 := by norm_num [yearMem, yearsInt]

lemma interpParams_2016 : interpParams 2016 = (2015, 2020, 1/5) := by
  norm_num [interpParams, yearsInt, minYear, maxYear, lastYear,
    List.filter, List.max?, List.min?, List.foldl]

lemma interpParams_2017 : interpParams 2017 = (2015, 2020, 2/5) := by
  norm_num [interpParams, yearsInt, minYear, maxYear, lastYear,
    List.filter, List.max?, List.min?, List.foldl]

lemma interpParams_2018 : interpParams 2018 = (2015, 2020, 3/5) := by
  norm_num [interpParams, yearsInt, minYear, maxYear, lastYear,
    List.filter, List.max?, List.min?, List.foldl]

lemma interpParams_2019 : interpParams 2019 = (2015, 2020, 4/5) := by
  norm_num [interpParams, yearsInt, minYear, maxYear, lastYear,
    List.filter, List.max?, List.min?, List.foldl]

lemma interpParams_2100 : interpParams 2100 = (2020, 2020, 0) := by
  norm_num [interpParams, yearsInt, minYear, maxYear, lastYear,
    List.filter, List.max?, List.min?, List.foldl]

lemma indexOf_2000 : yearsInt.indexOf (2000 : ℤ) = 20 := by decide

lemma indexOf_2015 : yearsInt.indexOf (2015 : ℤ) = 23 := by decide

lemma indexOf_2020 : yearsInt.indexOf (2020 : ℤ) = 24 := by decide

lemma g_1_1_at_2000 : tableCoeff true 2000 1 1 = -1728.2 := by
  rw [tableCoeff_of_ne_last (by decide)]
  unfold parsedCoeff
  rw [indexOf_2000]
  simp [colVal, igrfRows, igrfRowsC0, igrfRowsC1, igrfRowsC2, igrfRowsC3, igrfRowsC4,
    igrfRowsC5, igrfRowsC6, igrfRowsC7, igrfRowsC8, igrfRowsC9, igrfRowsC10,
    igrfRowsC11, igrfRowsC12, igrfRowsC13, igrfRowsC14, igrfRowsC15, igrfRowsC16,
    igrfRowsC17, igrfRowsC18, igrfRowsC19, List.find?]

lemma g_0_1_at_2015 : tableCoeff true 2015 0 1 = -29442.0 := by
  rw [tableCoeff_of_ne_last (by decide)]
  unfold parsedCoeff
  rw [indexOf_2015]
  simp [colVal, igrfRows, igrfRowsC0, igrfRowsC1, igrfRowsC2, igrfRowsC3, igrfRowsC4,
    igrfRowsC5, igrfRowsC6, igrfRowsC7, igrfRowsC8, igrfRowsC9, igrfRowsC10,
    igrfRowsC11, igrfRowsC12, igrfRowsC13, igrfRowsC14, igrfRowsC15, igrfRowsC16,
    igrfRowsC17, igrfRowsC18, igrfRowsC19, List.find?]

lemma sv_0_1 : svRate true 0 1 = 10.3 := by
  unfold svRate parsedCoeff
  rw [lastYear_eq, indexOf_2020]
  simp [colVal, igrfRows, igrfRowsC0, igrfRowsC1, igrfRowsC2, igrfRowsC3, igrfRowsC4,
    igrfRowsC5, igrfRowsC6, igrfRowsC7, igrfRowsC8, igrfRowsC9, igrfRowsC10,
    igrfRowsC11, igrfRowsC12, igrfRowsC13, igrfRowsC14, igrfRowsC15, igrfRowsC16,
    igrfRowsC17, igrfRowsC18, igrfRowsC19, List.find?]

/-! Claim theorems. -/

/-- C10: set_year called with year=None (in particular when the model is
constructed without a year argument) substitutes the current UTC year
time.gmtime()[0] and then behaves exactly as an explicit request for
that year. -/
theorem setYear_none_defaults_to_today (nowUTC : ℤ) (s : IgrfState) :
    setYearOpt none nowUTC s = setYearOpt (some ((nowUTC : ℤ) : ℚ)) nowUTC s := rfl

/-- C6: for an epoch equal to a tabulated year, set_year reproduces the
exact tabulated coefficient set of that year with the Schmidt
normalization applied and no interpolation performed. -/
theorem resolve_tabulated_exact (y : ℤ) (hy : y ∈ yearsInt) (m n : ℕ) :
    (setYear ((y : ℤ) : ℚ) initState).gcoeff m n
        = ((tableCoeff true y m n : ℚ) : ℝ) * schmidtNorm m n ∧
    (setYear ((y : ℤ) : ℚ) initState).hcoeff m n
        = ((tableCoeff false y m n : ℚ) : ℝ) * schmidtNorm m n :=
  ⟨setYear_tab_g y hy m n, setYear_tab_h y hy m n⟩

/-- Witness for C6 at the tabulated year 2000 and coefficient (1, 1). -/
theorem resolve_tabulated_exact_witness :
    (setYear ((2000 : ℤ) : ℚ) initState).gcoeff 1 1
        = ((tableCoeff true 2000 1 1 : ℚ) : ℝ) * schmidtNorm 1 1 ∧
    (setYear ((2000 : ℤ) : ℚ) initState).hcoeff 1 1
        = ((tableCoeff false 2000 1 1 : ℚ) : ℝ) * schmidtNorm 1 1 :=
  resolve_tabulated_exact 2000 (by decide) 1 1

/-- C7: an epoch below the minimum tabulated epoch is silently clamped
to the lower table bound, with no error: the resolved coefficients
equal those of the minimum tabulated epoch 1900. -/
theorem resolve_below_min_clamped (e : ℚ) (he : e < 1900) (m n : ℕ) :
    (setYear e initState).gcoeff m n = (setYear ((1900 : ℤ) : ℚ) initState).gcoeff m n ∧
    (setYear e initState).hcoeff m n = (setYear ((1900 : ℤ) : ℚ) initState).hcoeff m n := by
  unfold setYear
  rw [if_neg (not_yearMem_of_lt he), if_pos (yearMem_cast 1900 (by decide)),
    interpParams_below he]
  simp [yearKeyOf, initState]

/-- Witness for C7 at the epoch 1850 of the spec scenario and
coefficient (0, 1). -/
theorem resolve_below_min_clamped_witness :
    (setYear 1850 initState).gcoeff 0 1
        = (setYear ((1900 : ℤ) : ℚ) initState).gcoeff 0 1 ∧
    (setYear 1850 initState).hcoeff 0 1
        = (setYear ((1900 : ℤ) : ℚ) initState).hcoeff 0 1 :=
  resolve_below_min_clamped 1850 (by norm_num) 0 1

/-- C3 fails on the code: configuring an instance to the tabulated year
2000 twice double-applies the Schmidt matrix to the cached g(1,1)
(stored raw value -1728.2, Schmidt factor -1), because the cache
aliases the stored table entry and the in-place multiplication writes
through the alias: the first configure call already overwrites the
table entry. -/
theorem setYear_mutates_table :
    (setYear 2000 (setYear 2000 initState)).gcoeff 1 1
        ≠ (setYear 2000 initState).gcoeff 1 1 ∧
    (setYear 2000 initState).tableg 2000 1 1 ≠ initState.tableg 2000 1 1 := by
  have hmem : yearMem (2000 : ℚ) := ⟨2000, by decide, by norm_num⟩
  have hkey : yearKeyOf (2000 : ℚ) = 2000 := by norm_num [yearKeyOf]
  unfold setYear
  simp [hmem, hkey, initState]
  norm_num [g_1_1_at_2000, schmidtNorm_one_one]

/-- C1's extrapolation statement fails on the code at k = 1: resolving
epoch 2016 gives g(1,0) = -29442.0 + 10.3/5 (one fifth of the stored
secular-variation rate per year, because the rate column was folded
into the 2020 table entry only once), not
resolve(2015) + 1 * rate = -29442.0 + 10.3. -/
theorem sv_extrapolation_counterexample :
    (setYear 2016 initState).gcoeff 0 1
      ≠ (setYear ((2015 : ℤ) : ℚ) initState).gcoeff 0 1
          + ((svRate true 0 1 : ℚ) : ℝ) * schmidtNorm 0 1 := by
  rw [setYear_interp_g 2016 notMem_2016 2015 2020 (1/5) interpParams_2016 0 1,
    setYear_tab_g 2015 (by decide) 0 1, tableCoeff_last_eq, g_0_1_at_2015, sv_0_1,
    schmidtNorm_zero_one]
  norm_num

/-- C1 amended: on the terminal span the code advances each coefficient
at one fifth of the stored secular-variation rate per year,
resolve(2015 + k) = (c2015 + (k/5) rate) (post-normalization) for
integer 1 <= k <= 4, and epochs beyond the final key 2020 are clamped
to it, so resolve(2100) equals resolve(2020) rather than a linear
extrapolation to 2100. -/
theorem terminal_span_rate_amended (k : ℕ) (hk1 : 1 ≤ k) (hk4 : k ≤ 4) (m n : ℕ) :
    ((setYear (2015 + (k : ℚ)) initState).gcoeff m n
        = ((tableCoeff true 2015 m n + (k : ℚ) / 5 * svRate true m n : ℚ) : ℝ)
            * schmidtNorm m n ∧
      (setYear (2015 + (k : ℚ)) initState).hcoeff m n
        = ((tableCoeff false 2015 m n + (k : ℚ) / 5 * svRate false m n : ℚ) : ℝ)
            * schmidtNorm m n) ∧
    (setYear 2100 initState).gcoeff m n
        = (setYear ((2020 : ℤ) : ℚ) initState).gcoeff m n ∧
    (setYear 2100 initState).hcoeff m n
        = (setYear ((2020 : ℤ) : ℚ) initState).hcoeff m n := by
  refine ⟨?_, ?_, ?_⟩
  · interval_cases k
    · rw [show (2015 + ((1 : ℕ) : ℚ)) = (2016 : ℚ) from by norm_num]
      refine ⟨?_, ?_⟩
      · rw [setYear_interp_g 2016 notMem_2016 2015 2020 (1/5) interpParams_2016 m n,
          tableCoeff_last_eq]
        push_cast
        ring
      · rw [setYear_interp_h 2016 notMem_2016 2015 2020 (1/5) interpParams_2016 m n,
          tableCoeff_last_eq]
        push_cast
        ring
    · rw [show (2015 + ((2 : ℕ) : ℚ)) = (2017 : ℚ) from by norm_num]
      refine ⟨?_, ?_⟩
      · rw [setYear_interp_g 2017 notMem_2017 2015 2020 (2/5) interpParams_2017 m n,
          tableCoeff_last_eq]
        push_cast
        ring
      · rw [setYear_interp_h 2017 notMem_2017 2015 2020 (2/5) interpParams_2017 m n,
          tableCoeff_last_eq]
        push_cast
        ring
    · rw [show (2015 + ((3 : ℕ) : ℚ)) = (2018 : ℚ) from by norm_num]
      refine ⟨?_, ?_⟩
      · rw [setYear_interp_g 2018 notMem_2018 2015 2020 (3/5) interpParams_2018 m n,
          tableCoeff_last_eq]
        push_cast
        ring
      · rw [setYear_interp_h 2018 notMem_2018 2015 2020 (3/5) interpParams_2018 m n,
          tableCoeff_last_eq]
        push_cast
        ring
    · rw [show (2015 + ((4 : ℕ) : ℚ)) = (2019 : ℚ) from by norm_num]
      refine ⟨?_, ?_⟩
      · rw [setYear_interp_g 2019 notMem_2019 2015 2020 (4/5) interpParams_2019 m n,
          tableCoeff_last_eq]
        push_cast
        ring
      · rw [setYear_interp_h 2019 notMem_2019 2015 2020 (4/5) interpParams_2019 m n,
          tableCoeff_last_eq]
        push_cast
        ring
  · rw [setYear_interp_g 2100 notMem_2100 2020 2020 0 interpParams_2100 m n,
      setYear_tab_g 2020 (by decide) m n]
    push_cast
    ring
  · rw [setYear_interp_h 2100 notMem_2100 2020 2020 0 interpParams_2100 m n,
      setYear_tab_h 2020 (by decide) m n]
    push_cast
    ring

/-- Witness for the amended C1 at k = 2 and coefficient (0, 1). -/
theorem terminal_span_rate_amended_witness :
    ((setYear (2015 + ((2 : ℕ) : ℚ)) initState).gcoeff 0 1
        = ((tableCoeff true 2015 0 1 + ((2 : ℕ) : ℚ) / 5 * svRate true 0 1 : ℚ) : ℝ)
            * schmidtNorm 0 1 ∧
      (setYear (2015 + ((2 : ℕ) : ℚ)) initState).hcoeff 0 1
        = ((tableCoeff false 2015 0 1 + ((2 : ℕ) : ℚ) / 5 * svRate false 0 1 : ℚ) : ℝ)
            * schmidtNorm 0 1) ∧
    (setYear 2100 initState).gcoeff 0 1
        = (setYear ((2020 : ℤ) : ℚ) initState).gcoeff 0 1 ∧
    (setYear 2100 initState).hcoeff 0 1
        = (setYear ((2020 : ℤ) : ℚ) initState).hcoeff 0 1 :=
  terminal_span_rate_amended 2 (by norm_num) (by norm_num) 0 1

/-- C9: read_coefficients stores, under the final epoch key 2020, the
2015 set plus the raw secular-variation column added exactly once, so
linear interpolation across the 2015-2020 span advances each
coefficient at one fifth of the stated rate per year of epoch. -/
theorem read_coefficients_sv_folded_once :
    (∀ (isG : Bool) (m n : ℕ),
        tableCoeff isG 2020 m n = tableCoeff isG 2015 m n + svRate isG m n) ∧
    (∀ m n : ℕ,
        (setYear 2017 initState).gcoeff m n - (setYear 2016 initState).gcoeff m n
          = ((svRate true m n / 5 : ℚ) : ℝ) * schmidtNorm m n) := by
  refine ⟨tableCoeff_last_eq, fun m n => ?_⟩
  rw [setYear_interp_g 2017 notMem_2017 2015 2020 (2/5) interpParams_2017 m n,
    setYear_interp_g 2016 notMem_2016 2015 2020 (1/5) interpParams_2016 m n,
    tableCoeff_last_eq]
  push_cast
  ring

/-- C2 fails on the code: for the same spherical field result, here
(Br, Btheta, Bphi) = (0, 1, 0) with rotation angle psi = 0, the
geographic path gives total intensity 1 nT while the cartesian path
gives 0 nT, because cartesian() inserts the nanotesla field components
where the polar angles of a vector decomposition belong, collapsing the
magnitude to the absolute radial component. -/
theorem cartesian_magnitude_mismatch :
    geographicMagnitude 0 1 0 0 = 1 ∧ cartesianMagnitude 0 1 0 = 0 ∧
    geographicMagnitude 0 1 0 0 ≠ cartesianMagnitude 0 1 0 := by
  unfold geographicMagnitude cartesianMagnitude enuOfField cartesianOfField
  norm_num

/-- C8 fails on the code: convert_coordinates given no complete
coordinate triple (here no coordinates at all, and also a lone radius
with the other two spherical components missing) does not raise an
error; it prints a message and returns the zero position
r = theta = phi = 0. -/
theorem convert_coordinates_silent_zero :
    convertCoordinates none none none none none none none none none
      = { r := 0, theta := 0, phi := 0, psi := none, warned := true } ∧
    convertCoordinates (some 6371200) none none none none none none none none
      = { r := 0, theta := 0, phi := 0, psi := none, warned := true } :=
  ⟨rfl, rfl⟩

/-- Any state produced by set_year has a triangular g cache: entries
below the diagonal carry a zero Schmidt factor (the scipy factorial of
a negative argument is zero). -/
lemma setYear_gcoeff_tri (y : ℚ) (s : IgrfState) {m n : ℕ} (h : n < m) :
    (setYear y s).gcoeff m n = 0 := by
  unfold setYear
  split <;> simp [schmidtNorm_zero_of_lt h]

/-- Any state produced by set_year has a triangular h cache. -/
lemma setYear_hcoeff_tri (y : ℚ) (s : IgrfState) {m n : ℕ} (h : n < m) :
    (setYear y s).hcoeff m n = 0 := by
  unfold setYear
  split <;> simp [schmidtNorm_zero_of_lt h]

/-- A rectangular double sum collapses to the triangular one when the
summand vanishes above the diagonal. -/
lemma rect_to_tri (d : ℕ) (f : ℕ → ℕ → ℝ) (hf : ∀ n m, n < m → f n m = 0) :
    ∑ n ∈ Finset.range (d + 1), ∑ m ∈ Finset.range (d + 1), f n m
      = ∑ n ∈ Finset.range (d + 1), ∑ m ∈ Finset.range (n + 1), f n m := by
  apply Finset.sum_congr rfl
  intro n hn
  rw [Finset.mem_range] at hn
  symm
  apply Finset.sum_subset (Finset.range_subset.mpr (by omega))
  intro m hm hnm
  rw [Finset.mem_range] at hm
  rw [Finset.mem_range] at hnm
  exact hf n m (by omega)

/-- C5: for radius r > 0, colatitude within the clamp range
[1e-6, pi - 1e-6], any longitude, and degree at most 13, the vectorized
spherical() evaluation coincides exactly (in real arithmetic) with the
scalar (n,m) double-sum reference _spherical0, both returning
(Br, -Btheta, -Bphi/sin theta, V) in the final convention, for the
coefficients cached by any set_year call. -/
theorem spherical_matches_reference (y : ℚ) (s : IgrfState) (P dP : ℕ → ℕ → ℝ)
    (r θ φ : ℝ) (d : ℕ) (hr : 0 < r) (hθl : 1e-6 ≤ θ) (hθu : θ ≤ Real.pi - 1e-6)
    (hd : d ≤ 13) :
    sphericalVec (setYear y s).gcoeff (setYear y s).hcoeff P dP r θ φ d
      = some (spherical0 (setYear y s).gcoeff (setYear y s).hcoeff P dP r θ φ d) := by
  have hg : ∀ m n : ℕ, n < m → (setYear y s).gcoeff m n = 0 :=
    fun m n h => setYear_gcoeff_tri y s h
  have hh : ∀ m n : ℕ, n < m → (setYear y s).hcoeff m n = 0 :=
    fun m n h => setYear_hcoeff_tri y s h
  set G := (setYear y s).gcoeff with hG
  set H := (setYear y s).hcoeff with hH
  have hθc : max (1e-6 : ℝ) (min θ (Real.pi - 1e-6)) = θ := by
    rw [min_eq_left hθu, max_eq_right hθl]
  have hRe : (0 : ℝ) < ReE := by norm_num [ReE]
  have hRr : |ReE / r| = ReE / r := abs_of_pos (div_pos hRe hr)
  unfold sphericalVec spherical0
  rw [if_pos (show d + 1 ≤ 15 by omega)]
  simp only [hθc, hRr]
  refine congrArg some (Prod.ext ?_ (Prod.ext ?_ (Prod.ext ?_ ?_)))
  all_goals dsimp only
  · trans (∑ n ∈ Finset.range (d+1), ∑ m ∈ Finset.range (d+1),
        (ReE/r)^(n+2) * ((n:ℝ)+1) *
          (G m n * Real.cos ((m:ℝ)*φ) + H m n * Real.sin ((m:ℝ)*φ)) * P m n)
    · apply Finset.sum_congr rfl
      intro n _
      rw [← Finset.sum_add_distrib, Finset.sum_mul]
      apply Finset.sum_congr rfl
      intro m _
      ring
    · exact rect_to_tri d _ (fun n m hlt => by rw [hg m n hlt, hh m n hlt]; ring)
  · refine congrArg Neg.neg ?_
    trans (∑ n ∈ Finset.range (d+1), ∑ m ∈ Finset.range (d+1),
        (ReE/r)^(n+2) *
          (G m n * Real.cos ((m:ℝ)*φ) + H m n * Real.sin ((m:ℝ)*φ)) *
            (dP m n * (-1 * Real.sin θ)))
    · apply Finset.sum_congr rfl
      intro n _
      rw [← Finset.sum_add_distrib, Finset.sum_mul]
      apply Finset.sum_congr rfl
      intro m _
      ring
    · exact rect_to_tri d _ (fun n m hlt => by rw [hg m n hlt, hh m n hlt]; ring)
  · have hnum : (∑ n ∈ Finset.range (d+1),
        (-(∑ m ∈ Finset.range (d+1), G m n * P m n * ((m:ℝ) * Real.sin ((m:ℝ)*φ)))
          + (∑ m ∈ Finset.range (d+1), H m n * P m n * ((m:ℝ) * Real.cos ((m:ℝ)*φ)))) *
            (ReE/r)^(n+2))
        = ∑ n ∈ Finset.range (d+1), ∑ m ∈ Finset.range (n+1),
            (ReE/r)^(n+2) *
              (-(G m n) * Real.sin ((m:ℝ)*φ) + H m n * Real.cos ((m:ℝ)*φ)) * P m n * (m:ℝ) := by
      trans (∑ n ∈ Finset.range (d+1), ∑ m ∈ Finset.range (d+1),
          (ReE/r)^(n+2) *
            (-(G m n) * Real.sin ((m:ℝ)*φ) + H m n * Real.cos ((m:ℝ)*φ)) * P m n * (m:ℝ))
      · apply Finset.sum_congr rfl
        intro n _
        rw [← Finset.sum_neg_distrib, ← Finset.sum_add_distrib, Finset.sum_mul]
        apply Finset.sum_congr rfl
        intro m _
        ring
      · exact rect_to_tri d _ (fun n m hlt => by rw [hg m n hlt, hh m n hlt]; ring)
    rw [hnum]
  · rw [mul_comm]
    refine congrArg (fun x => x * ReE) ?_
    have hpow : ∀ n : ℕ, (ReE/r)^(n+2) / (ReE/r) = (ReE/r)^(n+1) := by
      intro n
      rw [pow_succ]
      exact mul_div_cancel_right₀ _ (ne_of_gt (div_pos hRe hr))
    simp only [hpow]
    trans (∑ n ∈ Finset.range (d+1), ∑ m ∈ Finset.range (d+1),
        (ReE/r)^(n+1) *
          (G m n * Real.cos ((m:ℝ)*φ) + H m n * Real.sin ((m:ℝ)*φ)) * P m n)
    · apply Finset.sum_congr rfl
      intro n _
      rw [← Finset.sum_add_distrib, Finset.sum_mul]
      apply Finset.sum_congr rfl
      intro m _
      ring
    · exact rect_to_tri d _ (fun n m hlt => by rw [hg m n hlt, hh m n hlt]; ring)

/-- Witness for C5 at the epoch-2000 model, r = 6371200 m, theta = 1,
phi = 0, degree 13, with zero Legendre matrices. -/
theorem spherical_matches_reference_witness :
    sphericalVec (setYear 2000 initState).gcoeff (setYear 2000 initState).hcoeff
        (fun _ _ => 0) (fun _ _ => 0) 6371200 1 0 13
      = some (spherical0 (setYear 2000 initState).gcoeff (setYear 2000 initState).hcoeff
        (fun _ _ => 0) (fun _ _ => 0) 6371200 1 0 13) :=
  spherical_matches_reference 2000 initState (fun _ _ => 0) (fun _ _ => 0) 6371200 1 0 13
    (by norm_num) (by norm_num) (by nlinarith [Real.pi_gt_three]) (by norm_num)

lemma colVal_n14 (isG : Bool) (idx m : ℕ) : colVal isG idx m 14 = 0 := by
  simp [colVal, igrfRows, igrfRowsC0, igrfRowsC1, igrfRowsC2, igrfRowsC3, igrfRowsC4,
    igrfRowsC5, igrfRowsC6, igrfRowsC7, igrfRowsC8, igrfRowsC9, igrfRowsC10,
    igrfRowsC11, igrfRowsC12, igrfRowsC13, igrfRowsC14, igrfRowsC15, igrfRowsC16,
    igrfRowsC17, igrfRowsC18, igrfRowsC19, List.find?]

lemma colVal_m14 (isG : Bool) (idx n : ℕ) : colVal isG idx 14 n = 0 := by
  simp [colVal, igrfRows, igrfRowsC0, igrfRowsC1, igrfRowsC2, igrfRowsC3, igrfRowsC4,
    igrfRowsC5, igrfRowsC6, igrfRowsC7, igrfRowsC8, igrfRowsC9, igrfRowsC10,
    igrfRowsC11, igrfRowsC12, igrfRowsC13, igrfRowsC14, igrfRowsC15, igrfRowsC16,
    igrfRowsC17, igrfRowsC18, igrfRowsC19, List.find?]

lemma sum_drop15 (f : ℕ → ℝ) (h : f 14 = 0) :
    ∑ m ∈ Finset.range 15, f m = ∑ m ∈ Finset.range 14, f m := by
  rw [show (15 : ℕ) = 14 + 1 from rfl, Finset.sum_range_succ, h, add_zero]

lemma msum_drop (Gf Hf Pf : ℕ → ℕ → ℝ) (c s w : ℕ → ℝ)
    (hGn : ∀ m, Gf m 14 = 0) (hGm : ∀ n, Gf 14 n = 0)
    (hHn : ∀ m, Hf m 14 = 0) (hHm : ∀ n, Hf 14 n = 0) :
    ∑ n ∈ Finset.range 15,
      ((∑ m ∈ Finset.range 15, Gf m n * Pf m n * c m)
        + (∑ m ∈ Finset.range 15, Hf m n * Pf m n * s m)) * w n
    = ∑ n ∈ Finset.range 14,
      ((∑ m ∈ Finset.range 14, Gf m n * Pf m n * c m)
        + (∑ m ∈ Finset.range 14, Hf m n * Pf m n * s m)) * w n := by
  rw [sum_drop15 _ (by simp [hGn, hHn])]
  apply Finset.sum_congr rfl
  intro n hn
  congr 1
  congr 1
  · exact sum_drop15 _ (by rw [hGm]; ring)
  · exact sum_drop15 _ (by rw [hHm]; ring)

lemma msum_drop_phi (Gf Hf Pf : ℕ → ℕ → ℝ) (c s w : ℕ → ℝ)
    (hGn : ∀ m, Gf m 14 = 0) (hGm : ∀ n, Gf 14 n = 0)
    (hHn : ∀ m, Hf m 14 = 0) (hHm : ∀ n, Hf 14 n = 0) :
    ∑ n ∈ Finset.range 15,
      (-(∑ m ∈ Finset.range 15, Gf m n * Pf m n * s m)
        + (∑ m ∈ Finset.range 15, Hf m n * Pf m n * c m)) * w n
    = ∑ n ∈ Finset.range 14,
      (-(∑ m ∈ Finset.range 14, Gf m n * Pf m n * s m)
        + (∑ m ∈ Finset.range 14, Hf m n * Pf m n * c m)) * w n := by
  rw [sum_drop15 _ (by simp [hGn, hHn])]
  apply Finset.sum_congr rfl
  intro n hn
  congr 1
  congr 1
  · exact congrArg Neg.neg (sum_drop15 _ (by rw [hGm]; ring))
  · exact sum_drop15 _ (by rw [hHm]; ring)

lemma setYear2000_g (m n : ℕ) :
    (setYear (2000 : ℚ) initState).gcoeff m n
      = ((tableCoeff true 2000 m n : ℚ) : ℝ) * schmidtNorm m n := by
  rw [show (2000 : ℚ) = ((2000 : ℤ) : ℚ) from by norm_num]
  exact setYear_tab_g 2000 (by decide) m n

lemma setYear2000_h (m n : ℕ) :
    (setYear (2000 : ℚ) initState).hcoeff m n
      = ((tableCoeff false 2000 m n : ℚ) : ℝ) * schmidtNorm m n := by
  rw [show (2000 : ℚ) = ((2000 : ℤ) : ℚ) from by norm_num]
  exact setYear_tab_h 2000 (by decide) m n

lemma g2000_n14 (m : ℕ) : (setYear (2000 : ℚ) initState).gcoeff m 14 = 0 := by
  rw [setYear2000_g, tableCoeff_of_ne_last (by decide)]
  unfold parsedCoeff
  rw [colVal_n14]
  norm_num

lemma g2000_m14 (n : ℕ) : (setYear (2000 : ℚ) initState).gcoeff 14 n = 0 := by
  rw [setYear2000_g, tableCoeff_of_ne_last (by decide)]
  unfold parsedCoeff
  rw [colVal_m14]
  norm_num

lemma h2000_n14 (m : ℕ) : (setYear (2000 : ℚ) initState).hcoeff m 14 = 0 := by
  rw [setYear2000_h, tableCoeff_of_ne_last (by decide)]
  unfold parsedCoeff
  rw [colVal_n14]
  norm_num

lemma h2000_m14 (n : ℕ) : (setYear (2000 : ℚ) initState).hcoeff 14 n = 0 := by
  rw [setYear2000_h, tableCoeff_of_ne_last (by decide)]
  unfold parsedCoeff
  rw [colVal_m14]
  norm_num

/-- C4 amended: for requested degree at most 14 the evaluation succeeds
and uses exactly the requested degree (the degree-14 slice only adds
coefficients beyond the tabulated degree 13, which are all zero, so its
value equals the degree-13 truncation); for degree 15 or more the
15 x 15 coefficient slice no longer matches the Legendre matrices and
the evaluation raises a broadcast error instead of clamping. -/
theorem spherical_degree_amended (P dP : ℕ → ℕ → ℝ) (r θ φ : ℝ) (d : ℕ) :
    (15 ≤ d →
      sphericalVec (setYear 2000 initState).gcoeff (setYear 2000 initState).hcoeff
        P dP r θ φ d = none) ∧
    (d ≤ 14 →
      (sphericalVec (setYear 2000 initState).gcoeff (setYear 2000 initState).hcoeff
        P dP r θ φ d).isSome = true) ∧
    sphericalVec (setYear 2000 initState).gcoeff (setYear 2000 initState).hcoeff
        P dP r θ φ 14
      = sphericalVec (setYear 2000 initState).gcoeff (setYear 2000 initState).hcoeff
        P dP r θ φ 13 := by
  refine ⟨fun hd => ?_, fun hd => ?_, ?_⟩
  · unfold sphericalVec
    rw [if_neg (by omega)]
  · unfold sphericalVec
    rw [if_pos (by omega)]
    rfl
  · have hgN := g2000_n14
    have hgM := g2000_m14
    have hhN := h2000_n14
    have hhM := h2000_m14
    unfold sphericalVec
    rw [if_pos (by omega), if_pos (by omega)]
    simp only [show (14 : ℕ) + 1 = 15 from rfl, show (13 : ℕ) + 1 = 14 from rfl]
    refine congrArg some (Prod.ext ?_ (Prod.ext ?_ (Prod.ext ?_ ?_)))
    all_goals dsimp only
    · exact msum_drop _ _ _ _ _ _ hgN hgM hhN hhM
    · exact congrArg Neg.neg (msum_drop _ _ _ _ _ _ hgN hgM hhN hhM)
    · exact congrArg (fun x => -x / Real.sin (max 1e-6 (min θ (Real.pi - 1e-6))))
        (msum_drop_phi _ _ _ _ _ _ hgN hgM hhN hhM)
    · exact congrArg (fun x => ReE * x) (msum_drop _ _ _ _ _ _ hgN hgM hhN hhM)

/-- C4 as stated fails on the code: requesting evaluation degree 15 is
not silently clamped; the coefficient slice stays 15 x 15 while lpmn
returns 16 x 16 matrices and numpy raises a broadcast error, modelled
as the none result. -/
theorem spherical_degree_counterexample :
    sphericalVec (setYear 2000 initState).gcoeff (setYear 2000 initState).hcoeff
        (fun _ _ => 0) (fun _ _ => 0) 6371200 1 0 15 = none := by
  unfold sphericalVec
  rw [if_neg (by omega)]

/-- Witness for the amended C4 at degrees 16 and 7. -/
theorem spherical_degree_amended_witness :
    sphericalVec (setYear 2000 initState).gcoeff (setYear 2000 initState).hcoeff
        (fun _ _ => 0) (fun _ _ => 0) 6371200 1 0 16 = none ∧
    (sphericalVec (setYear 2000 initState).gcoeff (setYear 2000 initState).hcoeff
        (fun _ _ => 0) (fun _ _ => 0) 6371200 1 0 7).isSome = true :=
  ⟨(spherical_degree_amended (fun _ _ => 0) (fun _ _ => 0) 6371200 1 0 16).1 (by norm_num),
   (spherical_degree_amended (fun _ _ => 0) (fun _ _ => 0) 6371200 1 0 7).2.1 (by norm_num)⟩

end Igrf
